import Mathlib

/-!
Verification of the YuS stream cipher core (`Yus_cipher` repository).

The C++ sources are shallowly embedded as executable Lean definitions:
GMP `mpz_class` values become `Int`, byte vectors become `List Nat`
(entries < 256 by construction), and fallible operations return
`Except CipherError`.  The process-global `static SBox` that the source
instantiates inside `apply_sbox_layer` is made explicit as an
`Option Int` (the modulus the static S-box was first constructed with,
or `none` before the first call) threaded through every operation that
can reach an S-box layer.
-/

namespace Yus

/-! ## SHAKE128 (FIPS 202), the XOF used by `RoundKeyGenerator::shake128_xof`.

The source delegates to OpenSSL's SHAKE128; we embed the standard
Keccak sponge directly.  Lanes are `Nat` values < 2^64, state is a flat
list of 25 lanes indexed `x + 5*y`. -/

def U64 : Nat := 2 ^ 64

def rotl64 (x n : Nat) : Nat :=
  ((x <<< n) % U64) ||| (x >>> (64 - n))

/-- The 24 Keccak round constants. -/
def keccakRC : List Nat :=
  [1, 32898, 9223372036854808714, 9223372039002292224,
   32907, 2147483649, 9223372039002292353, 9223372036854808585,
   138, 136, 2147516425, 2147483658,
   2147516555, 9223372036854775947, 9223372036854808713, 9223372036854808579,
   9223372036854808578, 9223372036854775936, 32778, 9223372039002259466,
   9223372039002292353, 9223372036854808704, 2147483649, 9223372039002292232]

/-- Rotation offsets of the ρ step, indexed by flat lane index `x + 5*y`. -/
def rhoOff : List Nat :=
  [0, 1, 62, 28, 27, 36, 44, 6, 55, 20, 3, 10, 43]
    ++ [25, 39, 41, 45, 15, 21, 8, 18, 2, 61, 56, 14]

/-- For each target lane `t` of the π step, the flat index of its source lane
(π sends lane `x + 5*y` to lane `y + 5*((2x + 3y) % 5)`). -/
def piSrc : List Nat :=
  [0, 6, 12, 18, 24, 3, 9, 10, 16, 22, 1, 7, 13, 19, 20, 4, 5, 11, 17, 23, 2, 8, 14, 15, 21]

def lane (A : List Nat) (i : Nat) : Nat := A.getD i 0

def keccakRound (A : List Nat) (rc : Nat) : List Nat :=
  let C := (List.range 5).map fun x =>
    lane A x ^^^ lane A (x + 5) ^^^ lane A (x + 10) ^^^ lane A (x + 15) ^^^ lane A (x + 20)
  let D := (List.range 5).map fun x =>
    lane C ((x + 4) % 5) ^^^ rotl64 (lane C ((x + 1) % 5)) 1
  let A1 := (List.range 25).map fun i => lane A i ^^^ lane D (i % 5)
  let B := (List.range 25).map fun t => rotl64 (lane A1 (lane piSrc t)) (lane rhoOff (lane piSrc t))
  let A2 := (List.range 25).map fun i =>
    lane B i ^^^ ((lane B ((i % 5 + 1) % 5 + 5 * (i / 5)) ^^^ (U64 - 1)) &&&
                   lane B ((i % 5 + 2) % 5 + 5 * (i / 5)))
  (lane A2 0 ^^^ rc) :: A2.tail

/-- The Keccak-f[1600] permutation. -/
def keccakP (A : List Nat) : List Nat :=
  keccakRC.foldl keccakRound A

/-- Interpret up to 200 bytes as 25 little-endian 64-bit lanes (missing bytes are zero). -/
def bytesToLanes (bs : List Nat) : List Nat :=
  (List.range 25).map fun i =>
    (List.range 8).foldl (fun acc k => acc + ((bs.getD (8 * i + k) 0) <<< (8 * k))) 0

/-- First `n` bytes of the state, little-endian per lane. -/
def lanesToBytes (A : List Nat) (n : Nat) : List Nat :=
  (List.range n).map fun i => (lane A (i / 8) >>> (8 * (i % 8))) &&& 255

/-- SHAKE128 multi-rate padding (rate 168 bytes, domain suffix 0x1F). -/
def shakePad (msg : List Nat) : List Nat :=
  let q := 168 - msg.length % 168
  if q = 1 then msg ++ [0x9F]
  else msg ++ [0x1F] ++ List.replicate (q - 2) 0 ++ [0x80]

def absorb (padded : List Nat) : List Nat :=
  (List.range (padded.length / 168)).foldl
    (fun s b =>
      keccakP (List.zipWith (fun x y => x ^^^ y) s (bytesToLanes ((padded.drop (168 * b)).take 168))))
    (List.replicate 25 0)

/-- `SHAKE128(msg, outLen)`: the XOF behind `RoundKeyGenerator::shake128_xof`. -/
def shake128 (msg : List Nat) (outLen : Nat) : List Nat :=
  (((List.range (outLen / 168 + 1)).map fun i =>
    lanesToBytes (keccakP^[i] (absorb (shakePad msg))) 168).join).take outLen

/-! ## Field arithmetic and byte conversion (`utils.cpp`) -/

/-- `mod()` from `utils.cpp`: GMP `%` truncates toward zero, and a negative
remainder is canonicalized by adding `p`. -/
def cppMod (a p : Int) : Int :=
  let r := Int.tmod a p
  if r < 0 then r + p else r

/-- `is_p_2mod3` from `utils.cpp`: `(p % 3) == 2` with GMP truncated `%`. -/
def is_p_2mod3 (p : Int) : Bool := Int.tmod p 3 == 2

/-- `bytes_to_mpz` from `utils.cpp`: `mpz_import(..., count, order=1, size=1,
endian=0, nails=0, ...)` reads the bytes most-significant first. -/
def bytes_to_mpz (bytes : List Nat) : Int :=
  bytes.foldl (fun (acc : Int) (b : Nat) => acc * 256 + (b : Int)) 0

inductive CipherError where
  | invalidArgument
  | notInitialized
deriving DecidableEq, Repr

/-! ## S-box (`sbox.cpp`) -/

structure SBox where
  p : Int
deriving DecidableEq, Repr

/-- `SBox::SBox(p)`: throws `std::invalid_argument` unless p ≡ 2 mod 3. -/
def SBox.make (p : Int) : Except CipherError SBox :=
  if is_p_2mod3 p then .ok ⟨p⟩ else .error .invalidArgument

/-- The body of `SBox::apply` on a triple (after the length-3 check):
`(x0 mod p, (x0·x2 + x1) mod p, (−x0·x1 + x0·x2 + x2) mod p)`. -/
def sboxTriple (p x0 x1 x2 : Int) : List Int :=
  [cppMod x0 p, cppMod (x0 * x2 + x1) p, cppMod (-x0 * x1 + x0 * x2 + x2) p]

/-- `SBox::apply`. -/
def SBox.apply (s : SBox) (input : List Int) : Except CipherError (List Int) :=
  if input.length ≠ 3 then .error .invalidArgument
  else .ok (sboxTriple s.p (input.getD 0 0) (input.getD 1 0) (input.getD 2 0))

/-- The integers `0, 1, …, p−1` (the loops `for (x = 0; x < p; ++x)`). -/
def fieldRange (p : Int) : List Int := (List.range p.toNat).map fun n => (n : Int)

/-- `SBox::is_permutation`: for p > 1000 the determinant test
`mod(1 + p + p², p) ≠ 0`; otherwise exhaustive enumeration of all p³ outputs,
returning false on the first repeated output and finally comparing the image
size with p³. -/
def SBox.is_permutation (s : SBox) : Bool :=
  if s.p > 1000 then cppMod (1 + s.p + s.p * s.p) s.p != 0
  else
    let outs := (fieldRange s.p).bind fun x0 =>
      (fieldRange s.p).bind fun x1 =>
        (fieldRange s.p).map fun x2 => sboxTriple s.p x0 x1 x2
    decide outs.Nodup && ((outs.length : Int) == s.p * s.p * s.p)

/-- `SBox::differential_uniformity`. -/
def SBox.differential_uniformity (s : SBox) : Int := s.p * s.p

/-! ## Linear layer (`linear_layer.cpp`)

`matrix_` transcribes, row by row, the 36 binary row strings that the
`LinearLayer` constructor parses ('1' ↦ 1, '0' ↦ 0). -/

def matrix_ : List (List Nat) :=
  [[1,1,0,1,1,1,1,1,1,0,0,1,0,0,1,1,1,1,0,1,1,1,1,0,1,1,0,0,0,1,1,1,0,1,1,1],
   [1,1,1,1,1,0,1,0,1,0,1,0,1,1,0,1,0,1,1,0,1,1,1,1,1,1,1,0,1,0,0,1,1,1,1,0],
   [0,1,0,0,1,1,0,1,1,1,1,0,1,0,1,0,1,1,1,1,1,1,0,1,0,1,1,1,1,1,1,1,1,1,0,1],
   [1,1,1,1,1,0,1,1,1,1,1,1,0,0,1,0,0,1,1,1,1,0,1,1,1,1,0,1,1,0,0,0,1,1,1,0],
   [1,1,0,1,1,1,1,1,0,1,0,1,0,1,0,1,1,0,1,0,1,1,0,1,1,1,1,1,1,1,0,1,0,0,1,1],
   [1,0,1,0,1,0,0,1,1,0,1,1,1,1,0,1,0,1,0,1,1,1,1,1,1,0,1,0,1,1,1,1,1,1,1,1],
   [1,1,0,1,1,1,1,1,0,1,1,1,1,1,1,0,0,1,0,0,1,1,1,1,0,1,1,1,1,0,1,1,0,0,0,1],
   [0,1,1,1,1,0,1,1,1,1,1,0,1,0,1,0,1,0,1,1,0,1,0,1,1,0,1,1,1,1,1,1,1,0,1,0],
   [1,1,1,1,0,1,0,1,0,0,1,1,0,1,1,1,1,0,1,0,1,0,1,1,1,1,1,1,0,1,0,1,1,1,1,1],
   [0,0,1,1,1,0,1,1,1,1,1,0,1,1,1,1,1,1,0,0,1,0,0,1,1,1,1,0,1,1,1,1,0,1,1,0],
   [0,1,0,0,1,1,1,1,0,1,1,1,1,1,0,1,0,1,0,1,0,1,1,0,1,0,1,1,0,1,1,1,1,1,1,1],
   [1,1,1,1,1,1,1,0,1,0,1,0,0,1,1,0,1,1,1,1,0,1,0,1,0,1,1,1,1,1,1,0,1,0,1,1],
   [1,1,0,0,0,1,1,1,0,1,1,1,1,1,0,1,1,1,1,1,1,0,0,1,0,0,1,1,1,1,0,1,1,1,1,0],
   [1,1,1,0,1,0,0,1,1,1,1,0,1,1,1,1,1,0,1,0,1,0,1,0,1,1,0,1,0,1,1,0,1,1,1,1],
   [0,1,1,1,1,1,1,1,1,1,0,1,0,1,0,0,1,1,0,1,1,1,1,0,1,0,1,0,1,1,1,1,1,1,0,1],
   [1,1,0,1,1,0,0,0,1,1,1,0,1,1,1,1,1,0,1,1,1,1,1,1,0,0,1,0,0,1,1,1,1,0,1,1],
   [1,1,1,1,1,1,0,1,0,0,1,1,1,1,0,1,1,1,1,1,0,1,0,1,0,1,0,1,1,0,1,0,1,1,0,1],
   [1,0,1,0,1,1,1,1,1,1,1,1,1,0,1,0,1,0,0,1,1,0,1,1,1,1,0,1,0,1,0,1,1,1,1,1],
   [0,1,1,1,1,0,1,1,0,0,0,1,1,1,0,1,1,1,1,1,0,1,1,1,1,1,1,0,0,1,0,0,1,1,1,1],
   [1,0,1,1,1,1,1,1,1,0,1,0,0,1,1,1,1,0,1,1,1,1,1,0,1,0,1,0,1,0,1,1,0,1,0,1],
   [1,1,1,1,0,1,0,1,1,1,1,1,1,1,1,1,0,1,0,1,0,0,1,1,0,1,1,1,1,0,1,0,1,0,1,1],
   [1,1,1,0,1,1,1,1,0,1,1,0,0,0,1,1,1,0,1,1,1,1,1,0,1,1,1,1,1,1,0,0,1,0,0,1],
   [1,0,1,1,0,1,1,1,1,1,1,1,0,1,0,0,1,1,1,1,0,1,1,1,1,1,0,1,0,1,0,1,0,1,1,0],
   [0,1,1,1,1,1,1,0,1,0,1,1,1,1,1,1,1,1,1,0,1,0,1,0,0,1,1,0,1,1,1,1,0,1,0,1],
   [0,0,1,1,1,1,0,1,1,1,1,0,1,1,0,0,0,1,1,1,0,1,1,1,1,1,0,1,1,1,1,1,1,0,0,1],
   [1,1,0,1,0,1,1,0,1,1,1,1,1,1,1,0,1,0,0,1,1,1,1,0,1,1,1,1,1,0,1,0,1,0,1,0],
   [1,0,1,0,1,1,1,1,1,1,0,1,0,1,1,1,1,1,1,1,1,1,0,1,0,1,0,0,1,1,0,1,1,1,1,0],
   [0,0,1,0,0,1,1,1,1,0,1,1,1,1,0,1,1,0,0,0,1,1,1,0,1,1,1,1,1,0,1,1,1,1,1,1],
   [0,1,0,1,1,0,1,0,1,1,0,1,1,1,1,1,1,1,0,1,0,0,1,1,1,1,0,1,1,1,1,1,0,1,0,1],
   [1,1,0,1,0,1,0,1,1,1,1,1,1,0,1,0,1,1,1,1,1,1,1,1,1,0,1,0,1,0,0,1,1,0,1,1],
   [1,1,1,0,0,1,0,0,1,1,1,1,0,1,1,1,1,0,1,1,0,0,0,1,1,1,0,1,1,1,1,1,0,1,1,1],
   [1,0,1,0,1,0,1,1,0,1,0,1,1,0,1,1,1,1,1,1,1,0,1,0,0,1,1,1,1,0,1,1,1,1,1,0],
   [0,1,1,1,1,0,1,0,1,0,1,1,1,1,1,1,0,1,0,1,1,1,1,1,1,1,1,1,0,1,0,1,0,0,1,1],
   [1,1,1,1,1,1,0,0,1,0,0,1,1,1,1,0,1,1,1,1,0,1,1,0,0,0,1,1,1,0,1,1,1,1,1,0],
   [1,1,0,1,0,1,0,1,0,1,1,0,1,0,1,1,0,1,1,1,1,1,1,1,0,1,0,0,1,1,1,1,0,1,1,1],
   [0,1,1,0,1,1,1,1,0,1,0,1,0,1,1,1,1,1,1,0,1,0,1,1,1,1,1,1,1,1,1,0,1,0,1,0]]

def fourRussiansLit : List (List Nat) :=
  [[0, 29636671867, 66349039071, 41151251620, 50700708778, 56564699857, 20389205621, 10086330126, 30934944731, 7879422624, 35457086980, 62932619135, 55803289713, 43358165258, 15243632046, 23268746453],
   [0, 49755975423, 62008286549, 25674691498, 41321127643, 8778788900, 34109457294, 53229579633, 54450419709, 31017965826, 11853376168, 40117191767, 22339987750, 62918674393, 48795120755, 3385170572],
   [0, 15029955247, 55691114204, 66717228147, 23286497262, 26107532609, 41280948530, 46763582365, 51520165241, 36524900310, 30226621349, 19167922442, 62632290967, 59776565304, 10240269387, 4790220516],
   [0, 33212053222, 48853024626, 55369681300, 68563938253, 35654540587, 20021990591, 13202678361, 59537995571, 44680479189, 27973929025, 5250743975, 9295043838, 23917013528, 40631985036, 63590716778],
   [0, 47226813333, 67475168879, 22736971258, 63987104158, 17633001995, 5640873969, 50177973348, 34217122989, 55995017016, 35478209218, 11748604247, 38966289715, 16852557478, 28576267100, 53043839177],
   [0, 58765013887, 30860496119, 45126991752, 67578553707, 8947766804, 36852410780, 22451706595, 57803250686, 3690817665, 44463445769, 34167891062, 12057149077, 66035355114, 25262600802, 35692364061],
   [0, 40725538747, 59592092511, 19941379300, 50109145078, 12110182477, 27737715881, 64661852946, 50926403036, 11276212839, 25845569155, 66570580280, 1909449258, 38833063313, 58757532021, 20759097038],
   [0, 64419879678, 57275776949, 15743296843, 63813840613, 606123035, 15275594064, 57743395758, 34322700279, 38695832841, 45771139138, 18649281212, 39297693970, 33720787948, 19121161895, 45299309657],
   [0, 45889355182, 29474387759, 53485275777, 68423172027, 22571729429, 39503644820, 15530341690, 23517457781, 68023750875, 15660522074, 38827157492, 45498323662, 954117984, 52800398817, 29596178511]]


/-- Column-indicator built inside `precompute_four_russians`: bit `row` of
`colVec col` is set iff `matrix_[row][col] == 1`. -/
def colVec (col : Nat) : Nat :=
  (List.range 36).foldl
    (fun acc row => if (matrix_.getD row []).getD col 0 == 1 then acc ||| (1 <<< row) else acc) 0

/-- One entry of the Four-Russians table: the XOR of the column indicators of
the columns of group `group` selected by `mask`. -/
def fourRussiansEntry (group mask : Nat) : Nat :=
  (List.range 4).foldl
    (fun sum bit =>
      if mask &&& (1 <<< bit) != 0 then Nat.xor sum (colVec (group * 4 + bit)) else sum) 0

/-- `four_russians_table_` as filled by `LinearLayer::precompute_four_russians`:
9 groups × 16 masks. -/
def four_russians_table_ : List (List Nat) :=
  (List.range 9).map fun group => (List.range 16).map fun mask => fourRussiansEntry group mask

/-- The row mask built inside `LinearLayer::apply`: bit `bit` is set iff
`matrix_[row][group*4 + bit] == 1`. -/
def rowMask (row group : Nat) : Nat :=
  (List.range 4).foldl
    (fun m bit => if (matrix_.getD row []).getD (group * 4 + bit) 0 == 1 then m ||| (1 <<< bit) else m) 0

/-- The inner accumulation of `LinearLayer::apply` for one output row:
for every group, look up the precomputed 36-bit entry and, for each set bit
`i`, add `state[col_start + i % 4]` into the row sum mod p. -/
def applyRowWith (table : List (List Nat)) (state : List Int) (p : Int) (row : Nat) : Int :=
  (List.range 9).foldl
    (fun row_sum group =>
      let pre := (table.getD group []).getD (rowMask row group) 0
      (List.range 36).foldl
        (fun rs i => if pre.testBit i then cppMod (rs + state.getD (group * 4 + i % 4) 0) p else rs)
        row_sum)
    0

/-- `LinearLayer::apply`, parameterized by the lookup table. -/
def linearApplyWith (table : List (List Nat)) (state : List Int) (p : Int) :
    Except CipherError (List Int) :=
  if state.length ≠ 36 then .error .invalidArgument
  else .ok ((List.range 36).map (applyRowWith table state p))

/-- `LinearLayer::apply` (the instance table is always the precomputed one). -/
def LinearLayer.apply (state : List Int) (p : Int) : Except CipherError (List Int) :=
  linearApplyWith four_russians_table_ state p

/-- The plain matrix-vector product mod p of spec §4.D / §6.1:
`state'_i = (Σ_{j : M_{ij}=1} state_j) mod p`. -/
def matVecSpec (state : List Int) (p : Int) : List Int :=
  (List.range 36).map fun i =>
    ((List.range 36).foldl
      (fun acc j => acc + (if (matrix_.getD i []).getD j 0 == 1 then state.getD j 0 else 0)) 0).emod p

/-! ## S-box layer (`apply_sbox_layer` in `sbox.cpp`)

The source declares `static SBox sbox(p);` inside the function: the S-box is
constructed once per process, with the modulus of the *first* call, and reused
— with that cached modulus — by every later call whatever `p` they pass.
We make that global explicit as an `Option Int`. -/

/-- The 12 independent triple applications of the layer, using the cached
S-box modulus `sp`. -/
def sboxLayerPure (sp : Int) (state : List Int) : List Int :=
  (List.range 12).bind fun i =>
    sboxTriple sp (state.getD (3 * i) 0) (state.getD (3 * i + 1) 0) (state.getD (3 * i + 2) 0)

/-- `apply_sbox_layer(state, p)` with the static S-box state `g` explicit.
C++ static-local semantics: if the one-time construction throws, the static
stays uninitialized and construction is retried on the next call. -/
def apply_sbox_layerG (g : Option Int) (state : List Int) (p : Int) :
    Option Int × Except CipherError (List Int) :=
  if state.length ≠ 36 then (g, .error .invalidArgument)
  else
    match g with
    | some q => (some q, .ok (sboxLayerPure q state))
    | none =>
      if is_p_2mod3 p then (some p, .ok (sboxLayerPure p state))
      else (none, .error .invalidArgument)

/-! ## Round schedule (`round_key.cpp`) -/

structure RoundKeyGenerator where
  nonce : List Nat
  rounds : Nat
deriving DecidableEq, Repr

/-- 4-byte little-endian encoding: `(v >> (k*8)) & 0xFF` for k = 0..3. -/
def le32 (v : Nat) : List Nat :=
  [v &&& 255, (v >>> 8) &&& 255, (v >>> 16) &&& 255, (v >>> 24) &&& 255]

/-- `RoundKeyGenerator::generate_round_constant(i, j, p)`: SHAKE128 over
`nonce ∥ j_LE32 ∥ i_LE32`, 288 output bytes, each 8-byte slice read
big-endian, reduced mod p, zero replaced by 1. -/
def generate_round_constant (gen : RoundKeyGenerator) (i j : Nat) (p : Int) : List Int :=
  (List.range 36).map fun k =>
    let e := cppMod (bytes_to_mpz
      (((shake128 (gen.nonce ++ le32 j ++ le32 i) (36 * 8)).drop (k * 8)).take 8)) p
    if e == 0 then 1 else e

/-- `RoundKeyGenerator::generate_round_key`. -/
def generate_round_key (master_key round_constant : List Int) (p : Int) :
    Except CipherError (List Int) :=
  if master_key.length ≠ 36 ∨ round_constant.length ≠ 36 then .error .invalidArgument
  else .ok ((List.range 36).map fun k =>
    cppMod (master_key.getD k 0 * round_constant.getD k 0) p)

/-- `add_round_key`. -/
def add_round_key (state round_key : List Int) (p : Int) : Except CipherError (List Int) :=
  if state.length ≠ 36 ∨ round_key.length ≠ 36 then .error .invalidArgument
  else .ok ((List.range 36).map fun k =>
    cppMod (state.getD k 0 + round_key.getD k 0) p)

/-! ## Keystream engine (`yus_core.cpp`) -/

inductive SecurityLevel where
  | SEC80
  | SEC128
deriving DecidableEq, Repr

/-- `static_cast<uint32_t>(level)`: the enum constants are `SEC80 = 5`,
`SEC128 = 6`. -/
def SecurityLevel.toRounds : SecurityLevel → Nat
  | .SEC80 => 5
  | .SEC128 => 6

structure YuSCipher where
  p : Int
  level : SecurityLevel
  trunc_m : Nat
  master_key : List Int
  rk_gen : RoundKeyGenerator
deriving DecidableEq, Repr

/-- `YuSCipher::YuSCipher(p, level, trunc_m)`.  The member initializer
`sbox_(p)` rejects p ≢ 2 mod 3 even before the body re-checks it; the body
then rejects `trunc_m > 36` and `p < (1 << 16)`.  All three failures are
`std::invalid_argument`. -/
def YuSCipher.make (p : Int) (level : SecurityLevel) (trunc_m : Nat) :
    Except CipherError YuSCipher :=
  if ¬ is_p_2mod3 p then .error .invalidArgument
  else if trunc_m > 36 then .error .invalidArgument
  else if p < 65536 then .error .invalidArgument
  else .ok { p := p, level := level, trunc_m := trunc_m, master_key := [],
             rk_gen := { nonce := [], rounds := level.toRounds } }

/-- `YuSCipher::init(master_key, nonce)`. -/
def YuSCipher.init (c : YuSCipher) (master_key : List Int) (nonce : List Nat) :
    Except CipherError YuSCipher :=
  if master_key.length ≠ 36 then .error .invalidArgument
  else .ok { c with master_key := master_key,
                    rk_gen := { nonce := nonce, rounds := c.level.toRounds } }

/-- `YuSCipher::truncate`. -/
def YuSCipher.truncate (c : YuSCipher) (state : List Int) : Except CipherError (List Int) :=
  if state.length ≠ 36 then .error .invalidArgument
  else .ok (state.drop c.trunc_m)

/-- `YuSCipher::key_whitening`: round key from `rc^(0,j)`, then add. -/
def YuSCipher.key_whitening (c : YuSCipher) (state : List Int) (block_index : Nat) :
    Except CipherError (List Int) :=
  (generate_round_key c.master_key
      (generate_round_constant c.rk_gen 0 block_index c.p) c.p).bind
    fun rk0 => add_round_key state rk0 c.p

/-- Sequencing for the global-state-threading computations: on error the pair
is returned unchanged (the C++ exception aborts the call), on success the
continuation runs. -/
def exStep (a : Option Int × Except CipherError (List Int))
    (f : Option Int → List Int → Option Int × Except CipherError (List Int)) :
    Option Int × Except CipherError (List Int) :=
  match a with
  | (g, .error e) => (g, .error e)
  | (g, .ok v) => f g v

/-- `YuSCipher::round_transform` (`AK ∘ LP ∘ SL`), threading the static
S-box state; `table` is the linear layer's lookup table. -/
def YuSCipher.round_transformW (c : YuSCipher) (table : List (List Nat)) (g : Option Int)
    (state round_key : List Int) : Option Int × Except CipherError (List Int) :=
  exStep (apply_sbox_layerG g state c.p) fun g1 sbox_out =>
    (g1, (linearApplyWith table sbox_out c.p).bind fun linear_out =>
      add_round_key linear_out round_key c.p)

/-- One iteration of the round loop: derive the round key for round
`ridx + 1` and apply the round transform. -/
def YuSCipher.roundStep (c : YuSCipher) (table : List (List Nat)) (j : Nat)
    (acc : Option Int × Except CipherError (List Int)) (ridx : Nat) :
    Option Int × Except CipherError (List Int) :=
  exStep acc fun g1 st =>
    exStep (g1,
        generate_round_key c.master_key
          (generate_round_constant c.rk_gen (ridx + 1) j c.p) c.p)
      fun g2 rk => c.round_transformW table g2 st rk

/-- The body of the round loop, generalized over the list of round indices
(the loop runs it on `List.range rounds`, using round number `ridx + 1`). -/
def YuSCipher.runRoundsList (c : YuSCipher) (table : List (List Nat)) (g : Option Int)
    (state : List Int) (j : Nat) (rl : List Nat) : Option Int × Except CipherError (List Int) :=
  rl.foldl (c.roundStep table j) (g, .ok state)

/-- The round loop `for (r = 1; r <= rounds; ++r)` of `generate_keystream`. -/
def YuSCipher.runRoundsW (c : YuSCipher) (table : List (List Nat)) (g : Option Int)
    (state : List Int) (j : Nat) : Option Int × Except CipherError (List Int) :=
  c.runRoundsList table g state j (List.range c.level.toRounds)

/-- One iteration of the block loop of `generate_keystream`: counter vector,
whitening, `rounds` round transforms, final linear layer, truncation. -/
def YuSCipher.processBlockW (c : YuSCipher) (table : List (List Nat)) (g : Option Int)
    (j : Nat) : Option Int × Except CipherError (List Int) :=
  exStep (g, c.key_whitening ((List.range 36).map fun i =>
      cppMod ((i : Int) + 1 + (j : Int)) c.p) j) fun g1 st0 =>
    exStep (c.runRoundsW table g1 st0 j) fun g2 st =>
      (g2, (linearApplyWith table st c.p).bind fun fl => c.truncate fl)

/-- One iteration of the block loop: process block `j` and append its output
to the accumulated keystream. -/
def YuSCipher.blockStep (c : YuSCipher) (table : List (List Nat))
    (acc : Option Int × Except CipherError (List Int)) (j : Nat) :
    Option Int × Except CipherError (List Int) :=
  exStep acc fun g1 ks1 =>
    exStep (c.processBlockW table g1 j) fun g2 block => (g2, .ok (ks1 ++ block))

/-- The block loop of `generate_keystream`, generalized over the accumulated
keystream and the list of block indices.  A thrown exception aborts the whole
call with no partial output; after an error nothing further runs, so the
error and the global state are carried unchanged through the remaining
iterations. -/
def YuSCipher.blocksLoop (c : YuSCipher) (table : List (List Nat)) (g : Option Int)
    (ks : List Int) (jl : List Nat) : Option Int × Except CipherError (List Int) :=
  jl.foldl (c.blockStep table) (g, .ok ks)

/-- `YuSCipher::generate_keystream(block_count)`, with the static S-box state
threaded. -/
def YuSCipher.generate_keystreamW (c : YuSCipher) (table : List (List Nat)) (g : Option Int)
    (block_count : Nat) : Option Int × Except CipherError (List Int) :=
  if c.master_key = [] then (g, .error .notInitialized)
  else c.blocksLoop table g [] (List.range block_count)

/-- `YuSCipher::generate_keystream`: the linear layer uses the instance's
precomputed Four-Russians table. -/
def YuSCipher.generate_keystream (c : YuSCipher) (g : Option Int) (block_count : Nat) :
    Option Int × Except CipherError (List Int) :=
  c.generate_keystreamW four_russians_table_ g block_count

/-- The full observable effect of a `generate_keystream` call.  The method
reads but never assigns the instance fields (`p_`, `level_`, `trunc_m_`,
`master_key_`, `rk_gen_`), so the post-call instance is the pre-call one;
only the process-global static S-box state can change. -/
def YuSCipher.generate_keystream_full (c : YuSCipher) (g : Option Int) (block_count : Nat) :
    (YuSCipher × Option Int) × Except CipherError (List Int) :=
  let r := c.generate_keystream g block_count
  ((c, r.1), r.2)

/-- The row accumulation of `LinearLayer::apply` without the per-step
reduction. -/
def applyRowPure (table : List (List Nat)) (state : List Int) (row : Nat) : Int :=
  (List.range 9).foldl
    (fun row_sum group =>
      let pre := (table.getD group []).getD (rowMask row group) 0
      (List.range 36).foldl
        (fun rs i => if pre.testBit i then rs + state.getD (group * 4 + i % 4) 0 else rs)
        row_sum)
    0

def rowIdx0 : List Nat :=
  [0,1,2,3,0,1,2,0,1,2,3,3,0,1,0,0,1,2,1,3,1,2,3,6,7,7,5,7,4,7,4,6,6,7,4,7,6,7,9,10,8,10,11,8,9,10,11,8,9,11,8,10,11,8,11,11,13,14,15,12,13,14,15,14,15,12,12,13,14,13,15,13,13,16,17,18,16,18,16,19,16,17,18,16,18,18,18,19,16,17,19,17,20,21,21,22,23,21,23,20,22,23,20,23,20,21,21,23,20,21,20,22,26,25,26,27,26,27,26,24,27,24,27,26,25,27,26,28,29,30,29,31,29,30,30,31,28,30,28,29,31,28,29,28,29,30,30,32,33,34,35,32,34,33,33,34,33,32,33,35,34,34,35]

def rowIdx1 : List Nat :=
  [0,2,0,2,3,2,1,2,3,2,3,1,2,3,1,3,1,2,0,2,6,5,4,5,7,4,6,4,5,7,5,8,10,8,10,8,10,8,9,10,8,9,10,12,13,14,13,15,13,14,15,12,13,14,15,12,13,14,12,13,14,15,15,12,13,12,16,16,17,18,19,16,17,18,17,18,19,19,16,17,16,18,16,20,22,23,20,20,22,21,22,23,21,22,20,21,22,23,22,23,25,24,24,25,24,27,24,26,25,25,26,27,24,25,26,27,28,31,28,30,31,31,28,29,28,29,30,29,28,31,33,35,32,33,32,34,32,33,33,34,35,33,35,32,34,35,32,35,32,33]

def rowIdx2 : List Nat :=
  [0,1,2,3,0,2,3,0,2,3,0,1,2,3,0,2,0,1,3,1,0,1,2,0,1,2,3,4,5,6,4,6,6,6,7,4,5,7,5,4,5,6,4,6,4,7,8,10,11,8,11,8,9,9,11,8,9,8,10,8,9,9,10,11,9,11,12,13,15,13,12,14,15,12,12,14,15,13,12,14,15,14,15,16,19,18,19,18,19,19,17,19,16,19,16,18,18,19,21,22,20,21,22,22,21,23,20,23,22,20,21,22,23,20,21,22,24,26,24,25,26,24,27,26,27,27,24,25,25,26,27,25,27,24,26,27,28,31,28,30,30,31,28,31,30,31,30,31,31,29,31,34,32,33,34,35,32,33,34,33,34,32,33,34,34,33,35,32,35]

def rowIdx3 : List Nat :=
  [0,2,0,2,3,2,1,2,3,2,3,1,2,3,1,3,1,2,0,2,4,7,4,6,7,4,5,6,6,7,5,6,7,4,5,5,6,5,7,5,6,7,10,9,10,11,9,10,8,9,10,11,10,11,8,10,11,8,8,12,14,15,14,15,12,13,15,13,15,13,15,12,13,15,13,14,12,13,14,15,12,13,14,15,18,19,16,18,16,17,19,16,17,16,17,18,18,16,17,18,17,19,17,18,21,23,21,22,23,20,22,23,23,20,21,21,22,20,21,22,23,27,24,25,24,24,25,26,25,27,25,26,27,24,25,26,27,24,25,26,24,25,26,27,29,30,31,28,29,30,31,29,31,28,30,28,31,28,29,31,28,29,30,31,28,29,30,31,29,30,31,33,35,32,33,32,34,32,33,33,34,35,33,35,32,34,35,32,35,32,33]

def rowIdx4 : List Nat :=
  [0,1,2,3,0,1,2,0,1,2,3,3,0,1,0,0,1,2,1,3,1,2,3,6,7,7,5,7,4,7,4,6,6,7,4,7,6,7,8,10,9,11,8,9,9,11,8,10,9,11,8,11,8,9,10,12,14,15,14,13,14,12,13,15,13,14,16,17,19,17,18,17,16,17,19,16,18,21,22,20,21,22,22,21,23,20,23,22,20,21,22,23,20,21,22,25,26,27,26,27,25,26,27,25,27,25,26,24,26,24,26,24,26,27,26,30,31,28,29,31,29,28,29,30,28,30,28,31,28,29,30,28,30,30,33,34,35,34,35,33,32,34,32,35,33,34,35,32,33,34,32,35,33,35]

def rowIdx5 : List Nat :=
  [0,0,2,3,1,0,2,3,2,3,0,1,3,1,0,2,3,5,4,7,4,7,4,6,7,7,4,5,4,5,6,11,8,9,9,10,8,9,10,11,9,11,9,10,11,8,10,11,12,13,14,13,15,13,14,15,12,13,14,15,12,13,14,12,13,14,15,15,12,13,12,17,18,19,17,19,17,19,17,19,17,18,19,20,22,23,20,20,22,21,22,23,21,22,20,21,22,23,22,23,24,26,27,26,27,24,25,27,25,24,26,27,24,24,26,27,25,28,31,28,30,30,31,28,31,30,31,30,31,31,29,31,32,33,34,35,34,35,32,34,35,32,32,34,33,34,35,33,34]

def rowIdx6 : List Nat :=
  [0,1,2,3,0,1,2,0,1,2,3,3,0,1,0,0,1,2,1,3,1,2,3,6,7,7,5,7,4,7,4,6,6,7,4,7,6,7,8,9,11,10,10,11,8,9,10,11,8,10,9,9,10,9,12,15,12,14,13,13,14,15,12,13,14,15,13,12,12,13,16,17,18,19,17,18,17,18,19,16,18,16,18,16,18,19,16,18,16,17,19,16,17,18,19,20,22,23,20,20,22,21,22,23,21,22,20,21,22,23,22,23,24,26,24,25,26,24,27,26,27,27,24,25,25,26,27,25,27,24,26,27,30,31,29,30,31,28,29,29,30,29,31,29,30,31,28,31,28,30,31,28,29,30,32,34,32,33,34,32,34,35,33,34,35,32,33,34,35,32,33,35,32,35,32,33,34,32,34]

def rowIdx7 : List Nat :=
  [1,2,3,1,3,0,2,3,0,2,0,1,2,0,3,2,3,3,0,1,4,7,4,6,7,4,5,6,6,7,5,6,7,4,5,5,6,5,7,5,6,7,8,10,11,8,11,8,9,9,11,8,9,8,10,8,9,9,10,11,9,11,12,13,15,13,12,14,15,12,12,14,15,13,12,14,15,14,15,17,18,17,19,17,18,19,16,19,16,18,19,16,17,18,18,19,17,18,19,16,17,20,23,20,21,22,20,22,21,23,20,21,21,23,20,22,21,23,24,24,27,24,26,27,24,25,27,25,27,24,27,28,31,28,30,30,31,28,31,30,31,30,31,31,29,31,32,34,32,33,34,32,33,34,32,34,32,34]

def rowIdx8 : List Nat :=
  [0,2,0,2,3,2,1,2,3,2,3,1,2,3,1,3,1,2,0,2,7,5,7,5,7,5,6,7,5,6,7,5,8,9,10,8,11,9,11,9,10,11,10,11,9,8,10,8,11,9,10,11,14,15,15,12,13,13,14,15,13,15,12,14,15,12,14,12,13,14,12,15,16,17,19,17,18,17,16,17,19,16,18,21,23,21,22,23,20,22,23,23,20,21,21,22,20,21,22,23,25,26,27,26,27,25,26,27,25,27,25,26,24,26,24,26,24,26,27,26,29,30,31,29,30,31,29,31,29,31,29,31,32,33,34,35,34,35,32,34,35,32,32,34,33,34,35,33,34]

def rowIdx9 : List Nat :=
  [0,0,1,2,1,3,1,1,1,2,3,0,1,2,3,2,3,4,7,4,6,7,4,5,6,6,7,5,6,7,4,5,5,6,5,7,5,6,7,8,10,11,8,11,8,9,9,11,8,9,8,10,8,9,9,10,11,9,11,13,15,13,14,12,14,12,14,12,14,15,14,13,14,15,14,15,13,14,15,17,19,16,17,18,19,16,18,17,19,17,19,16,17,16,17,19,18,16,18,20,23,23,21,22,20,22,23,20,21,22,23,20,21,23,20,22,23,25,24,24,25,24,27,24,26,25,25,26,27,24,25,26,27,28,31,28,30,30,31,28,31,30,31,30,31,31,29,31,34,32,35,35,34,35,32,35,32,35,33,32,33,32,35]

def rowIdx10 : List Nat :=
  [0,1,2,3,0,2,3,0,2,3,0,1,2,3,0,2,0,1,3,1,0,1,2,0,1,2,3,6,7,7,5,7,4,7,4,6,6,7,4,7,6,7,8,9,11,10,10,11,8,9,10,11,8,10,9,9,10,9,12,13,14,13,15,13,14,15,12,13,14,15,12,13,14,12,13,14,15,15,12,13,12,17,18,19,17,19,17,19,17,19,17,18,19,22,23,20,23,20,23,21,20,21,20,23,22,20,23,23,24,24,27,24,26,27,24,25,27,25,27,24,27,28,29,30,29,31,29,30,30,31,28,30,28,29,31,28,29,28,29,30,30,32,33,34,35,34,35,32,34,35,32,32,34,33,34,35,33,34]

def rowIdx11 : List Nat :=
  [0,2,0,2,3,2,1,2,3,2,3,1,2,3,1,3,1,2,0,2,4,4,5,6,4,6,7,5,6,7,5,7,4,5,7,6,5,6,6,7,8,10,8,10,8,10,8,9,10,8,9,10,12,13,14,15,12,13,15,14,12,14,12,13,14,13,14,12,15,13,15,14,16,19,18,19,18,19,19,17,19,16,19,16,18,18,19,20,23,20,21,22,20,22,21,23,20,21,21,23,20,22,21,23,24,26,24,25,26,24,27,26,27,27,24,25,25,26,27,25,27,24,26,27,29,30,31,29,31,28,29,31,30,29,30,30,31,28,28,29,30,28,30,31,33,34,32,33,34,35,33,35,33,34,35,32,34,35,35,32,33]

def rowIdx12 : List Nat :=
  [2,1,3,2,2,1,2,3,2,3,2,0,3,0,3,4,5,4,5,6,6,4,5,6,5,7,5,6,6,7,4,6,4,5,7,8,9,11,10,10,11,8,9,10,11,8,10,9,9,10,9,12,13,14,13,15,13,14,15,12,13,14,15,12,13,14,12,13,14,15,15,12,13,12,16,19,18,19,18,19,19,17,19,16,19,16,18,18,19,20,23,23,21,22,20,22,23,20,21,22,23,20,21,23,20,22,23,25,27,25,25,25,26,27,24,25,26,27,26,27,24,24,25,26,30,31,28,29,31,29,28,29,30,28,30,28,31,28,29,30,28,30,30,33,35,32,33,32,34,32,33,33,34,35,33,35,32,34,35,32,35,32,33]

def rowIdx13 : List Nat :=
  [1,2,3,0,1,2,3,1,0,0,1,0,3,0,2,1,5,4,7,4,7,4,6,7,7,4,5,4,5,6,8,10,11,8,11,8,9,9,11,8,9,8,10,8,9,9,10,11,9,11,13,15,13,14,12,14,12,14,12,14,15,14,13,14,15,14,15,13,14,15,16,17,19,17,18,17,16,17,19,16,18,22,20,21,22,20,22,20,22,20,22,20,21,27,24,25,24,24,25,26,25,27,25,26,27,24,25,26,27,24,25,26,24,25,26,27,28,30,28,28,28,29,30,31,28,29,30,29,30,31,31,28,29,32,33,34,35,34,35,32,34,35,32,32,34,33,34,35,33,34]

def rowIdx14 : List Nat :=
  [1,2,3,1,3,0,2,3,0,2,0,1,2,0,3,2,3,3,0,1,6,7,7,5,7,4,7,4,6,6,7,4,7,6,7,9,11,8,11,10,8,9,10,11,8,9,10,9,10,8,9,10,10,13,12,13,14,12,13,14,15,12,13,14,15,12,14,15,12,14,15,12,13,14,15,12,14,12,13,15,16,17,18,16,18,16,19,16,17,18,16,18,18,18,19,16,17,19,17,20,21,21,22,23,21,23,20,22,23,20,23,20,21,21,23,20,21,20,22,24,26,27,26,27,24,25,27,25,24,26,27,24,24,26,27,25,28,31,28,30,30,31,28,31,30,31,30,31,31,29,31,34,32,33,34,35,32,33,34,33,34,32,33,34,34,33,35,32,35]

def rowIdx15 : List Nat :=
  [0,1,2,3,0,1,2,0,1,2,3,3,0,1,0,0,1,2,1,3,1,2,3,4,5,6,7,4,5,6,7,5,6,7,5,6,7,4,5,6,7,5,7,4,6,4,7,4,5,7,8,10,11,8,11,8,9,9,11,8,9,8,10,8,9,9,10,11,9,11,13,15,13,14,12,14,12,14,12,14,15,14,13,14,15,14,15,13,14,15,17,18,17,19,17,18,19,16,19,16,18,19,16,17,18,18,19,17,18,19,16,17,20,22,23,20,20,22,21,22,23,21,22,20,21,22,23,22,23,25,26,24,25,26,27,24,25,26,27,24,26,27,26,27,24,25,27,25,27,25,27,24,25,27,28,29,30,29,31,29,30,30,31,28,30,28,29,31,28,29,28,29,30,30,33,34,32,33,34,35,33,35,33,34,35,32,34,35,35,32,33]

def rowIdx16 : List Nat :=
  [0,2,0,2,3,2,1,2,3,2,3,1,2,3,1,3,1,2,0,2,4,5,6,4,6,6,6,7,4,5,7,5,4,5,6,4,6,4,7,8,9,10,8,11,9,11,9,10,11,10,11,9,8,10,8,11,9,10,11,12,13,14,13,15,13,14,15,12,13,14,15,12,13,14,12,13,14,15,15,12,13,12,16,19,18,19,18,19,19,17,19,16,19,16,18,18,19,20,23,20,21,22,20,22,21,23,20,21,21,23,20,22,21,23,24,25,27,25,26,24,26,27,26,25,26,28,29,31,28,30,28,29,31,29,30,29,34,32,33,34,35,32,33,34,33,34,32,33,34,34,33,35,32,35]

def rowIdx17 : List Nat :=
  [0,0,2,3,1,0,2,3,2,3,0,1,3,1,0,2,3,6,7,7,5,7,4,7,4,6,6,7,4,7,6,7,10,9,10,11,9,10,8,9,10,11,10,11,8,10,11,8,8,12,13,15,13,12,14,15,12,12,14,15,13,12,14,15,14,15,19,16,17,16,17,18,17,16,19,16,19,16,18,19,21,23,21,22,23,20,22,23,23,20,21,21,22,20,21,22,23,27,24,25,24,24,25,26,25,27,25,26,27,24,25,26,27,24,25,26,24,25,26,27,29,30,31,29,30,31,29,31,29,31,29,31,32,33,34,35,34,35,32,34,35,32,32,34,33,34,35,33,34]

def rowIdx18 : List Nat :=
  [1,2,3,1,3,0,2,3,0,2,0,1,2,0,3,2,3,3,0,1,4,7,4,6,7,4,5,6,6,7,5,6,7,4,5,5,6,5,7,5,6,7,8,11,8,9,10,8,10,8,10,8,9,10,8,10,11,9,10,11,8,9,10,11,8,9,11,12,13,14,13,15,13,14,15,12,13,14,15,12,13,14,12,13,14,15,15,12,13,12,16,19,18,19,18,19,19,17,19,16,19,16,18,18,19,21,21,22,21,20,21,23,22,22,23,20,21,22,23,20,22,25,24,24,25,24,27,24,26,25,25,26,27,24,25,26,27,28,30,28,29,31,28,29,30,31,28,29,30,31,29,30,29,30,31,28,30,28,30,28,30,31,32,33,34,35,34,35,32,34,35,32,32,34,33,34,35,33,34]

def rowIdx19 : List Nat :=
  [1,3,0,3,0,0,3,0,2,3,0,1,3,6,7,7,5,7,4,7,4,6,6,7,4,7,6,7,8,10,8,10,8,10,8,9,10,8,9,10,14,15,15,12,13,13,14,15,13,15,12,14,15,12,14,12,13,14,12,15,17,18,17,19,17,18,19,16,19,16,18,19,16,17,18,18,19,17,18,19,16,17,20,21,21,22,23,21,23,20,22,23,20,23,20,21,21,23,20,21,20,22,24,26,27,26,27,24,25,27,25,24,26,27,24,24,26,27,25,30,31,29,30,31,28,29,29,30,29,31,29,30,31,28,31,28,30,31,28,29,30,33,35,32,34,33,35,32,35,32,33,34,32,34,33,35,32,33]

def rowIdx20 : List Nat :=
  [0,2,0,2,3,2,1,2,3,2,3,1,2,3,1,3,1,2,0,2,7,5,7,5,7,5,6,7,5,6,7,5,10,9,10,11,9,10,8,9,10,11,10,11,8,10,11,8,8,13,15,13,14,12,14,12,14,12,14,15,14,13,14,15,14,15,13,14,15,17,18,19,17,19,17,19,17,19,17,18,19,20,22,20,23,21,22,23,20,21,22,20,23,21,23,21,22,23,22,23,21,24,26,24,25,26,24,27,26,27,27,24,25,25,26,27,25,27,24,26,27,28,29,31,28,30,28,29,31,29,30,29,33,34,32,33,34,35,33,35,33,34,35,32,34,35,35,32,33]

def rowIdx21 : List Nat :=
  [1,2,3,0,1,2,3,1,0,0,1,0,3,0,2,1,6,7,7,5,7,4,7,4,6,6,7,4,7,6,7,9,8,9,8,11,10,8,11,11,10,11,8,11,8,11,13,14,15,12,13,14,15,14,15,12,12,13,14,13,15,13,13,17,18,17,19,17,18,19,16,19,16,18,19,16,17,18,18,19,17,18,19,16,17,20,21,21,22,23,21,23,20,22,23,20,23,20,21,21,23,20,21,20,22,25,26,27,26,27,25,26,27,25,27,25,26,24,26,24,26,24,26,27,26,28,29,31,30,28,30,29,31,28,29,30,31,28,30,29,31,29,31,28,29,32,33,35,32,34,35,32,35,35,33,34,32,34,35,32,33,34,35]

def rowIdx22 : List Nat :=
  [1,3,0,3,0,0,3,0,2,3,0,1,3,4,5,4,5,6,6,4,5,6,5,7,5,6,6,7,4,6,4,5,7,10,9,10,11,9,10,8,9,10,11,10,11,8,10,11,8,8,13,12,13,14,12,13,14,15,12,13,14,15,12,14,15,12,14,15,12,13,14,15,12,14,12,13,15,16,19,18,19,18,19,19,17,19,16,19,16,18,18,19,21,21,22,21,20,21,23,22,22,23,20,21,22,23,20,22,27,24,25,24,24,25,26,25,27,25,26,27,24,25,26,27,24,25,26,24,25,26,27,29,30,31,29,30,31,29,31,29,31,29,31,34,32,35,35,34,35,32,35,32,35,33,32,33,32,35]

def rowIdx23 : List Nat :=
  [1,2,3,1,3,0,2,3,0,2,0,1,2,0,3,2,3,3,0,1,4,4,5,6,4,6,7,5,6,7,5,7,4,5,7,6,5,6,6,7,11,8,9,9,10,8,9,10,11,9,11,9,10,11,8,10,11,13,15,13,14,12,14,12,14,12,14,15,14,13,14,15,14,15,13,14,15,18,17,18,18,19,16,16,17,18,16,18,19,17,18,19,17,19,16,17,19,22,20,21,22,20,22,20,22,20,22,20,21,24,27,25,27,26,24,25,26,27,24,25,27,26,24,26,24,25,26,25,26,28,31,28,30,30,31,28,31,30,31,30,31,31,29,31,33,35,32,34,33,35,32,35,32,33,34,32,34,33,35,32,33]

def rowIdx24 : List Nat :=
  [0,0,1,2,1,3,1,1,1,2,3,0,1,2,3,2,3,4,5,6,4,6,6,6,7,4,5,7,5,4,5,6,4,6,4,7,8,10,11,8,11,8,9,9,11,8,9,8,10,8,9,9,10,11,9,11,14,12,15,12,15,14,13,15,14,14,13,14,15,14,15,18,19,16,18,16,17,19,16,17,16,17,18,18,16,17,18,17,19,17,18,21,21,22,21,20,21,23,22,22,23,20,21,22,23,20,22,27,24,25,24,24,25,26,25,27,25,26,27,24,25,26,27,24,25,26,24,25,26,27,28,31,28,30,30,31,28,31,30,31,30,31,31,29,31,32,33,35,32,34,35,32,35,35,33,34,32,34,35,32,33,34,35]

def rowIdx25 : List Nat :=
  [0,1,2,3,0,1,2,0,1,2,3,3,0,1,0,0,1,2,1,3,1,2,3,5,6,7,7,4,5,4,6,4,4,4,5,6,7,4,5,6,10,9,10,11,9,10,8,9,10,11,10,11,8,10,11,8,8,12,15,12,14,13,13,14,15,12,13,14,15,13,12,12,13,19,16,17,16,17,18,17,16,19,16,19,16,18,19,20,21,21,22,23,21,23,20,22,23,20,23,20,21,21,23,20,21,20,22,25,26,27,26,27,25,26,27,25,27,25,26,24,26,24,26,24,26,27,26,28,29,31,28,30,28,29,31,29,30,29,32,34,32,33,34,32,33,34,32,34,32,34]

def rowIdx26 : List Nat :=
  [0,0,2,3,1,0,2,3,2,3,0,1,3,1,0,2,3,6,7,7,5,7,4,7,4,6,6,7,4,7,6,7,9,11,8,11,10,8,9,10,11,8,9,10,9,10,8,9,10,10,14,15,15,12,13,13,14,15,13,15,12,14,15,12,14,12,13,14,12,15,16,19,18,19,18,19,19,17,19,16,19,16,18,18,19,21,22,20,21,22,22,21,23,20,23,22,20,21,22,23,20,21,22,24,25,26,27,24,26,24,25,27,25,24,25,26,24,25,26,27,24,25,26,27,24,26,27,24,26,27,30,31,28,29,31,29,28,29,30,28,30,28,31,28,29,30,28,30,30,33,35,32,33,32,34,32,33,33,34,35,33,35,32,34,35,32,35,32,33]

def rowIdx27 : List Nat :=
  [1,3,1,3,0,1,3,1,2,0,1,2,3,0,1,2,3,0,2,3,2,3,0,1,3,4,5,4,5,6,6,4,5,6,5,7,5,6,6,7,4,6,4,5,7,11,8,9,9,10,8,9,10,11,9,11,9,10,11,8,10,11,12,13,14,13,15,13,14,15,12,13,14,15,12,13,14,12,13,14,15,15,12,13,12,16,18,16,19,16,17,19,16,17,18,19,16,17,18,19,17,18,19,17,18,19,16,17,18,19,17,19,20,21,21,22,23,21,23,20,22,23,20,23,20,21,21,23,20,21,20,22,25,26,27,26,27,25,26,27,25,27,25,26,24,26,24,26,24,26,27,26,30,31,29,30,31,28,29,29,30,29,31,29,30,31,28,31,28,30,31,28,29,30,32,33,34,35,34,35,32,34,35,32,32,34,33,34,35,33,34]

def rowIdx28 : List Nat :=
  [2,1,2,0,1,3,1,2,0,2,3,6,5,4,5,7,4,6,4,5,7,5,9,11,8,11,10,8,9,10,11,8,9,10,9,10,8,9,10,10,13,15,13,14,12,14,12,14,12,14,15,14,13,14,15,14,15,13,14,15,16,17,18,16,18,16,19,16,17,18,16,18,18,18,19,16,17,19,17,20,22,20,23,21,22,23,20,21,22,20,23,21,23,21,22,23,22,23,21,27,24,25,24,24,25,26,25,27,25,26,27,24,25,26,27,24,25,26,24,25,26,27,28,31,28,30,30,31,28,31,30,31,30,31,31,29,31,33,35,32,34,33,35,32,35,32,33,34,32,34,33,35,32,33]

def rowIdx29 : List Nat :=
  [0,1,2,3,0,1,2,0,1,2,3,3,0,1,0,0,1,2,1,3,1,2,3,7,5,7,5,7,5,6,7,5,6,7,5,10,9,10,11,9,10,8,9,10,11,10,11,8,10,11,8,8,12,13,15,13,12,14,15,12,12,14,15,13,12,14,15,14,15,16,19,18,19,18,19,19,17,19,16,19,16,18,18,19,20,22,23,20,20,22,21,22,23,21,22,20,21,22,23,22,23,24,26,27,26,27,24,25,27,25,24,26,27,24,24,26,27,25,28,31,28,30,31,31,28,29,28,29,30,29,28,31,33,34,32,33,34,35,33,35,33,34,35,32,34,35,35,32,33]

def rowIdx30 : List Nat :=
  [1,2,3,0,1,2,3,1,0,0,1,0,3,0,2,1,4,6,4,6,4,6,7,4,6,4,5,7,4,5,6,7,4,5,6,7,5,6,5,6,7,10,9,10,11,9,10,8,9,10,11,10,11,8,10,11,8,8,14,15,15,12,13,13,14,15,13,15,12,14,15,12,14,12,13,14,12,15,17,18,17,19,17,18,19,16,19,16,18,19,16,17,18,18,19,17,18,19,16,17,21,22,23,20,21,22,23,20,21,23,20,23,20,21,22,20,22,20,22,20,21,22,20,22,23,27,24,25,24,24,25,26,25,27,25,26,27,24,25,26,27,24,25,26,24,25,26,27,28,31,28,30,30,31,28,31,30,31,30,31,31,29,31,32,33,34,35,32,34,33,33,34,33,32,33,35,34,34,35]

def rowIdx31 : List Nat :=
  [0,0,2,3,1,0,2,3,2,3,0,1,3,1,0,2,3,4,7,4,6,7,4,5,6,6,7,5,6,7,4,5,5,6,5,7,5,6,7,8,10,9,11,8,9,9,11,8,10,9,11,8,11,8,9,10,15,12,13,15,13,15,12,15,12,12,15,12,14,16,19,18,19,18,19,19,17,19,16,19,16,18,18,19,22,20,21,22,20,22,20,22,20,22,20,21,24,26,24,25,26,24,27,26,27,27,24,25,25,26,27,25,27,24,26,27,30,31,29,30,31,28,29,29,30,29,31,29,30,31,28,31,28,30,31,28,29,30,33,35,32,33,32,34,32,33,33,34,35,33,35,32,34,35,32,35,32,33]

def rowIdx32 : List Nat :=
  [1,2,3,1,3,0,2,3,0,2,0,1,2,0,3,2,3,3,0,1,6,5,4,5,7,4,6,4,5,7,5,11,8,9,9,10,8,9,10,11,9,11,9,10,11,8,10,11,13,15,13,14,12,14,12,14,12,14,15,14,13,14,15,14,15,13,14,15,17,18,19,17,19,17,19,17,19,17,18,19,20,22,23,20,20,22,21,22,23,21,22,20,21,22,23,22,23,25,26,27,26,27,25,26,27,25,27,25,26,24,26,24,26,24,26,27,26,29,30,31,29,30,31,29,31,29,31,29,31,33,34,35,34,35,33,32,34,32,35,33,34,35,32,33,34,32,35,33,35]

def rowIdx33 : List Nat :=
  [0,2,0,2,3,2,1,2,3,2,3,1,2,3,1,3,1,2,0,2,5,7,5,7,4,5,4,5,7,6,4,6,5,7,4,5,6,7,4,6,9,10,8,10,11,8,9,10,11,8,9,11,8,10,11,8,11,11,12,15,12,14,13,13,14,15,12,13,14,15,13,12,12,13,16,19,18,19,18,19,19,17,19,16,19,16,18,18,19,22,23,20,23,20,23,21,20,21,20,23,22,20,23,23,25,27,25,25,25,26,27,24,25,26,27,26,27,24,24,25,26,30,31,29,30,31,28,29,29,30,29,31,29,30,31,28,31,28,30,31,28,29,30,33,35,32,33,32,34,32,33,33,34,35,33,35,32,34,35,32,35,32,33]

def rowIdx34 : List Nat :=
  [0,1,2,3,0,1,2,0,1,2,3,3,0,1,0,0,1,2,1,3,1,2,3,7,5,7,5,7,5,6,7,5,6,7,5,9,8,9,8,11,10,8,11,11,10,11,8,11,8,11,15,12,13,15,13,15,12,15,12,12,15,12,14,18,19,16,18,16,17,19,16,17,16,17,18,18,16,17,18,17,19,17,18,20,22,23,20,20,22,21,22,23,21,22,20,21,22,23,22,23,24,25,26,27,24,26,24,25,27,25,24,25,26,24,25,26,27,24,25,26,27,24,26,27,24,26,27,28,31,28,30,30,31,28,31,30,31,30,31,31,29,31,32,33,34,35,32,34,33,33,34,33,32,33,35,34,34,35]

def rowIdx35 : List Nat :=
  [0,2,0,1,2,1,2,0,3,1,3,2,0,1,2,3,0,1,3,2,6,7,7,5,7,4,7,4,6,6,7,4,7,6,7,8,10,9,11,8,9,9,11,8,10,9,11,8,11,8,9,10,14,15,15,12,13,13,14,15,13,15,12,14,15,12,14,12,13,14,12,15,18,17,18,18,19,16,16,17,18,16,18,19,17,18,19,17,19,16,17,19,21,23,21,22,23,20,22,23,23,20,21,21,22,20,21,22,23,25,26,27,26,27,25,26,27,25,27,25,26,24,26,24,26,24,26,27,26,29,30,31,29,31,28,29,31,30,29,30,30,31,28,28,29,30,28,30,31,32,34,32,33,34,32,33,34,32,34,32,34]

/-- For each output row of the linear layer, the in-order list of state
indices `group*4 + i % 4` accumulated by `LinearLayer::apply` (one entry per
set bit `i` of the table entry of each group). -/
def rowIdx : List (List Nat) :=
  [rowIdx0, rowIdx1, rowIdx2, rowIdx3, rowIdx4, rowIdx5, rowIdx6, rowIdx7, rowIdx8,
   rowIdx9, rowIdx10, rowIdx11, rowIdx12, rowIdx13, rowIdx14, rowIdx15, rowIdx16,
   rowIdx17, rowIdx18, rowIdx19, rowIdx20, rowIdx21, rowIdx22, rowIdx23, rowIdx24,
   rowIdx25, rowIdx26, rowIdx27, rowIdx28, rowIdx29, rowIdx30, rowIdx31, rowIdx32,
   rowIdx33, rowIdx34, rowIdx35]

def rowFast (state : List Int) (p : Int) (row : Nat) : Int :=
  ((rowIdx.getD row []).foldl (fun a k => a + state.getD k 0) 0) % p

def linFast (state : List Int) (p : Int) : List Int :=
  (List.range 36).map (rowFast state p)

/-! ## Pure (error-free, fast) forms of the per-block pipeline -/

/-- The ok-branch of `generate_round_key`. -/
def rkPure (key rc : List Int) (p : Int) : List Int :=
  (List.range 36).map fun k => cppMod (key.getD k 0 * rc.getD k 0) p

/-- The ok-branch of `add_round_key`. -/
def akPure (state rk : List Int) (p : Int) : List Int :=
  (List.range 36).map fun k => cppMod (state.getD k 0 + rk.getD k 0) p

/-- The counter vector `CV_j` built by `generate_keystream`. -/
def cvPure (p : Int) (j : Nat) : List Int :=
  (List.range 36).map fun i => cppMod ((i : Int) + 1 + (j : Int)) p

/-- One round transform `AK ∘ LP ∘ SL` on the pure forms with the round
constant given explicitly; `sp` is the modulus cached in the static S-box. -/
def roundFastR (sp p : Int) (key rc state : List Int) : List Int :=
  akPure (linFast (sboxLayerPure sp state) p) (rkPure key rc p) p

/-- One round transform, deriving the round constant for round `r`. -/
def roundFast (sp p : Int) (key : List Int) (gen : RoundKeyGenerator) (j : Nat)
    (state : List Int) (r : Nat) : List Int :=
  roundFastR sp p key (generate_round_constant gen r j p) state

/-- One whole keystream block: counter vector, whitening, `R` rounds, final
linear layer, truncation. -/
def blockFast (sp p : Int) (key : List Int) (gen : RoundKeyGenerator) (R m j : Nat) : List Int :=
  (linFast
    ((List.range R).foldl (fun st ridx => roundFast sp p key gen j st (ridx + 1))
      (akPure (cvPure p j) (rkPure key (generate_round_constant gen 0 j p) p) p))
    p).drop m

/-- Row-map form of the linear layer (the ok-branch of `LinearLayer::apply`). -/
def lpRows (state : List Int) (p : Int) : List Int :=
  (List.range 36).map fun row => applyRowWith four_russians_table_ state p row

/-! ## Spec-side formulations (mathematical mod, per the specification text) -/

/-- Round key `rk^(r,j)`: `rk_i = K_i · rc^(r,j)_i mod p` (spec §4.E). -/
def rkSpec (c : YuSCipher) (j r : Nat) : List Int :=
  (List.range 36).map fun k =>
    (c.master_key.getD k 0 * (generate_round_constant c.rk_gen r j c.p).getD k 0) % c.p

/-- Add-round-key: element-wise addition mod p (spec §4.E). -/
def akSpec (p : Int) (st rkv : List Int) : List Int :=
  (List.range 36).map fun k => (st.getD k 0 + rkv.getD k 0) % p

/-- Counter vector `CV_j[i] = ((i+1)+j) mod p` (spec §4.F step 1). -/
def cvSpec (c : YuSCipher) (j : Nat) : List Int :=
  (List.range 36).map fun i => ((i : Int) + 1 + (j : Int)) % c.p

/-- One round `AK(LP(SL(state)), rk^(r,j))` (spec §4.F step 3b). -/
def roundSpec (c : YuSCipher) (j : Nat) (st : List Int) (r : Nat) : List Int :=
  akSpec c.p (lpRows (sboxLayerPure c.p st) c.p) (rkSpec c j r)

/-- One whole block of the spec's per-block algorithm: whitening over `CV_j`,
`R` rounds, final diffusion `LP`, truncation to `state[m..36]`. -/
def blockSpec (c : YuSCipher) (j : Nat) : List Int :=
  (lpRows
    ((List.range c.level.toRounds).foldl
      (fun st ridx => roundSpec c j st (ridx + 1))
      (akSpec c.p (cvSpec c j) (rkSpec c j 0)))
    c.p).drop c.trunc_m

/-- Big-endian unsigned reading of a byte slice (spec §4.E step 3). -/
def beBytes (bs : List Nat) : Nat :=
  bs.foldl (fun acc b => acc * 256 + b) 0

/-- Modelled from the spec (§4.E, round constant generation): hash
`N ∥ j_LE32 ∥ r_LE32` with SHAKE128 to 288 bytes, read each 8-byte slice
big-endian, reduce mod p, replace zero by one. -/
def rcSpec (N : List Nat) (r j : Nat) (p : Int) : List Int :=
  (List.range 36).map fun k =>
    let w : Int := ((beBytes (((shake128 (N ++ le32 j ++ le32 r) 288).drop (k * 8)).take 8) : Nat) : Int) % p
    if w = 0 then 1 else w

/-! ## A concrete test instance (p = 65579, SEC80, m = 12, K = 1³⁶,
N = [1,2,3,4]) and the concrete block values of the cipher on it -/

def c0key : List Int := List.replicate 36 1

def c0nonce : List Nat := [1, 2, 3, 4]

def c0gen : RoundKeyGenerator := { nonce := c0nonce, rounds := 5 }

def c0 : YuSCipher :=
  { p := 65579, level := .SEC80, trunc_m := 12, master_key := c0key, rk_gen := c0gen }

/-- Another valid prime (65537 ≡ 2 mod 3, prime, ≥ 2^16) used as the modulus
of a hypothetical earlier cipher instance. -/
def qAlt : Int := 65537

/-- The keystream block for index 0 of `c0` (computed with S-box modulus 65579). -/
def b0 : List Int :=
  [49188, 26474, 35243, 28303, 6599, 27023, 846, 47629, 7892, 11084, 16650, 33072,
   21100, 62917, 8221, 23576, 32332, 35746, 18128, 57608, 35598, 58546, 22958, 62696]

/-- The keystream block for index 1 of `c0`. -/
def b1 : List Int :=
  [40415, 6884, 21488, 6173, 61927, 8974, 65039, 3026, 58085, 45371, 56240, 53161,
   21826, 40605, 50084, 26127, 57018, 15453, 14124, 49140, 6851, 32568, 13405, 42225]

/-- The keystream block for index 0 of `c0` when the process-global static
S-box was first constructed with modulus 65537 by an earlier instance. -/
def b0q : List Int :=
  [22522, 3673, 56347, 39978, 36075, 1691, 31470, 6044, 27390, 56484, 57128, 11523,
   29498, 19168, 24443, 41067, 54697, 62319, 51, 64189, 30892, 9133, 44442, 16730]

/-- The unit vector e₀, a failing input for the linear layer. -/
def e0 : List Int := 1 :: List.replicate 35 0

/-- A second cipher instance written out field by field, equal to `c0`
componentwise. -/
def c0b : YuSCipher :=
  { p := 65579, level := .SEC80, trunc_m := 12, master_key := List.replicate 36 1,
    rk_gen := { nonce := [1, 2, 3, 4], rounds := 5 } }

/-- A constructed-but-uninitialized instance (as `YuSCipher::YuSCipher` leaves
it before `init`). -/
def u0 : YuSCipher :=
  { p := 65579, level := .SEC80, trunc_m := 12, master_key := [],
    rk_gen := { nonce := [], rounds := 5 } }

/-! ## Literal values for concrete evaluation (round constants,
intermediate states, Keccak states) -/

def rc0j0 : List Int :=
  [39658, 33050, 57727, 54335, 47302, 36997, 3037, 50368, 37638, 7977, 32892, 8982, 15954, 50387, 59006, 23664, 43627, 43632, 15082, 55600, 37025, 39074, 36401, 41465, 32335, 25252, 23609, 20955, 40213, 64878, 17622, 31117, 26728, 24076, 16723, 35979]

def rc1j0 : List Int :=
  [42129, 18843, 34954, 11439, 14775, 5931, 42448, 63028, 16924, 45492, 56058, 19815, 53647, 3145, 5340, 18253, 14357, 29443, 11557, 62301, 60000, 33478, 62902, 56041, 23357, 42894, 34660, 10441, 349, 26701, 52810, 7861, 50799, 60856, 35953, 4860]

def rc2j0 : List Int :=
  [35472, 52991, 46232, 57433, 55745, 51545, 23669, 21729, 53921, 40032, 45124, 20680, 36824, 3147, 18505, 29991, 54792, 57527, 48806, 36900, 9036, 26632, 27767, 17238, 17184, 4789, 44286, 49302, 38329, 58236, 25070, 4499, 13393, 10775, 38111, 3073]

def rc3j0 : List Int :=
  [14538, 64540, 9587, 19773, 35362, 3078, 28257, 50064, 10027, 27664, 50958, 61660, 11595, 58200, 54706, 37367, 27803, 5841, 4933, 8616, 29013, 7778, 20676, 24552, 38491, 41072, 16248, 36368, 55680, 24832, 34955, 37211, 44589, 42537, 3178, 57470]

def rc4j0 : List Int :=
  [56742, 46638, 61903, 20209, 12690, 1432, 61562, 18621, 28824, 13303, 23245, 13611, 55263, 12379, 24102, 23717, 39647, 15106, 57910, 48348, 10615, 61854, 56163, 16966, 58363, 56443, 8230, 11226, 58483, 27573, 39963, 39533, 53157, 43714, 10733, 17976]

def rc5j0 : List Int :=
  [43145, 2332, 36057, 8428, 18383, 57959, 54494, 54871, 46752, 16895, 36318, 27587, 43674, 16261, 27144, 29790, 1078, 49083, 41155, 42924, 8594, 5825, 41113, 29057, 49820, 27634, 52129, 43839, 34828, 31874, 31620, 34012, 2476, 59850, 17507, 20575]

def rc0j1 : List Int :=
  [45132, 21212, 64872, 34138, 3742, 20161, 43388, 34703, 28827, 53772, 32201, 4365, 64537, 21764, 42018, 15924, 35168, 32369, 6262, 14381, 54136, 34579, 15391, 49700, 36005, 8456, 50129, 645, 15406, 8754, 33329, 38540, 33427, 65078, 7754, 39453]

def rc1j1 : List Int :=
  [59781, 44784, 29506, 49402, 62491, 26494, 45709, 52344, 4774, 3520, 1689, 17570, 63276, 52098, 21814, 59931, 21157, 25141, 11221, 54361, 48693, 54992, 62293, 27140, 3213, 26817, 3893, 58219, 48147, 59687, 18755, 13914, 58221, 39948, 25827, 38306]

def rc2j1 : List Int :=
  [47786, 59433, 63794, 32361, 18003, 40071, 27466, 34983, 56523, 2480, 52691, 60948, 43133, 21367, 4997, 2622, 7148, 35544, 5765, 23949, 7915, 54605, 21534, 33647, 63417, 42731, 34799, 21696, 50567, 21670, 50649, 64333, 35817, 55255, 63715, 4388]

def rc3j1 : List Int :=
  [1681, 15298, 51100, 45091, 33298, 46962, 31070, 60724, 12098, 51680, 26969, 37076, 9253, 58016, 35831, 31783, 48718, 46466, 35685, 10062, 31954, 34559, 19139, 32747, 65337, 69, 46673, 54478, 13731, 34259, 22487, 62835, 56218, 48438, 24455, 6703]

def rc4j1 : List Int :=
  [32476, 10364, 35285, 13181, 59713, 36584, 34643, 11471, 5279, 41630, 59863, 43426, 5734, 56029, 6836, 2416, 61742, 19175, 32249, 52020, 98, 31240, 47942, 54670, 40364, 17896, 7105, 57025, 48368, 18628, 34378, 2220, 9930, 35306, 50461, 5315]

def rc5j1 : List Int :=
  [29928, 36150, 63299, 41283, 64, 12151, 48457, 19030, 1279, 46627, 11300, 42522, 29536, 60816, 54, 21167, 10516, 14128, 42800, 12958, 41434, 54325, 61170, 484, 26124, 36502, 59822, 47026, 33228, 15811, 19164, 57518, 18392, 20397, 18587, 42398]

def stA0 : List Int :=
  [39659, 33052, 57730, 54339, 47307, 37003, 3044, 50376, 37647, 7987, 32903, 8994, 15967, 50401, 59021, 23680, 43644, 43650, 15101, 55620, 37046, 39096, 36424, 41489, 32360, 25278, 23636, 20983, 40242, 64908, 17653, 31149, 26761, 24110, 16758, 36015]

def stA1 : List Int :=
  [495, 33996, 31918, 34891, 24500, 21118, 17231, 60735, 34444, 22230, 39066, 47257, 6206, 18524, 9178, 32323, 453, 55317, 48872, 54317, 14771, 8706, 43552, 60596, 29599, 43472, 6437, 41115, 28757, 7885, 47885, 54520, 36096, 3100, 58252, 31124]

def stA2 : List Int :=
  [39308, 35916, 62734, 14898, 16598, 27529, 4858, 49058, 12372, 63288, 21639, 39543, 60056, 35794, 56714, 51336, 7540, 35865, 35341, 63110, 5364, 45353, 3286, 37832, 47043, 12825, 40474, 27643, 9328, 47384, 26337, 4647, 49659, 37305, 33646, 62518]

def stA3 : List Int :=
  [25315, 62617, 52121, 13782, 29102, 22638, 41135, 45326, 37415, 49969, 30110, 54473, 51769, 2693, 18819, 64647, 48325, 61943, 61597, 30868, 33306, 25873, 49108, 63287, 57667, 26002, 60509, 39893, 58938, 57490, 58985, 41333, 57679, 13557, 49831, 47453]

def stA4 : List Int :=
  [65106, 37200, 49510, 5225, 59590, 14743, 55421, 53415, 19157, 44680, 15339, 45682, 53215, 41395, 2070, 29718, 55976, 55233, 42750, 4711, 18372, 21409, 9394, 55846, 20693, 41626, 63029, 33375, 42336, 16911, 64048, 53191, 35099, 27305, 63061, 34388]

def stA5 : List Int :=
  [27280, 44679, 63686, 79, 27885, 5747, 9109, 58196, 32070, 39133, 1103, 24628, 19007, 60003, 3594, 45836, 53466, 22167, 5994, 11396, 50089, 6616, 14068, 20206, 3157, 45347, 50796, 56657, 39773, 6648, 61359, 26184, 6806, 6788, 35284, 3217]

def stB0 : List Int :=
  [45134, 21215, 64876, 34143, 3748, 20168, 43396, 34712, 28837, 53783, 32213, 4378, 64551, 21779, 42034, 15941, 35186, 32388, 6282, 14402, 54158, 34602, 15415, 49725, 36031, 8483, 50157, 674, 15436, 8785, 33361, 38573, 33461, 65113, 7790, 39490]

def stB1 : List Int :=
  [32484, 9972, 9890, 17236, 38385, 33353, 15930, 19612, 19759, 27631, 9784, 18243, 12790, 32889, 49910, 10690, 20982, 6744, 14837, 33720, 48715, 16690, 7675, 43842, 40109, 18177, 1070, 6296, 20448, 30858, 39932, 11807, 40596, 27355, 29799, 11007]

def stB2 : List Int :=
  [27550, 54238, 26347, 41345, 20613, 20652, 45684, 28329, 3259, 25551, 25059, 33208, 33279, 43976, 45722, 18006, 50725, 2109, 62687, 53754, 42630, 23924, 52249, 34558, 38122, 46658, 28102, 36833, 22543, 26157, 294, 49782, 1986, 2767, 26524, 20017]

def stB3 : List Int :=
  [59109, 12095, 36001, 63933, 24369, 42837, 61396, 43840, 31669, 10632, 3664, 34709, 18240, 9617, 48986, 30202, 12451, 58062, 5712, 48432, 3781, 39689, 63071, 48878, 44607, 18895, 29158, 51904, 24142, 59839, 7345, 42722, 14781, 11502, 17086, 12814]

def stB4 : List Int :=
  [64962, 57996, 5273, 16806, 34297, 9197, 1617, 21110, 16983, 52806, 11480, 52793, 47762, 63505, 50182, 1791, 49425, 20909, 45847, 4639, 52994, 59702, 30373, 4006, 55341, 56413, 55973, 10940, 2441, 45808, 12547, 50841, 7206, 22343, 45248, 3214]

def stB5 : List Int :=
  [46241, 59391, 40177, 12752, 18942, 13674, 44970, 46967, 42325, 34060, 35187, 27946, 54183, 44575, 23475, 14689, 3961, 43105, 58204, 2340, 34241, 45927, 51522, 44020, 4827, 51673, 32058, 54676, 61737, 59688, 16223, 16777, 32573, 27256, 22792, 63642]

def stQ1 : List Int :=
  [17593, 9603, 12443, 49677, 25441, 30032, 28184, 28026, 25875, 8074, 15741, 48873, 11485, 49719, 32305, 34474, 51399, 9950, 6861, 6062, 40218, 4468, 38301, 46061, 31542, 48208, 48215, 38122, 38516, 25987, 39221, 34481, 5139, 47262, 47908, 63351]

def stQ2 : List Int :=
  [65361, 21768, 64877, 54230, 46640, 56708, 23971, 15528, 4192, 44129, 28690, 38790, 11485, 64516, 39108, 5228, 15149, 41857, 8931, 20195, 53243, 29808, 27046, 42697, 28162, 14486, 38350, 30067, 7735, 11875, 36805, 54205, 63325, 16870, 64149, 50369]

def stQ3 : List Int :=
  [23107, 6542, 14355, 12004, 43064, 56569, 37408, 54928, 43835, 3228, 45197, 18241, 35820, 22836, 64042, 22256, 22610, 35901, 40654, 52368, 65507, 30995, 24144, 40955, 34253, 9915, 23586, 62294, 57388, 14084, 63707, 56270, 63609, 26785, 33018, 27588]

def stQ4 : List Int :=
  [25292, 36225, 48360, 35346, 27979, 4732, 19654, 2627, 35323, 13225, 30754, 47431, 30296, 50868, 62388, 33056, 4142, 51026, 10473, 16474, 39601, 14678, 63955, 1559, 26882, 50593, 64263, 621, 22, 64172, 54140, 4196, 3762, 5668, 2578, 23434]

def stQ5 : List Int :=
  [56999, 9983, 16648, 18797, 9842, 517, 11724, 54519, 11243, 12977, 21259, 52715, 57723, 1398, 7280, 65454, 18566, 29635, 13872, 33826, 31346, 39661, 10659, 52484, 46562, 38619, 8713, 65419, 6987, 31294, 12024, 2284, 65355, 61461, 60222, 62406]

/-- Keccak state after absorbing the padded rc input (r = 0, j = 0). -/
def ksA0j0 : List Nat :=
  [15404303161433266555, 6441504696721793697, 18213716773637169592, 18393941975967774454, 13910563428267174552, 8414891051372519922, 1559527888710852665, 5284016045071217506, 17869596054228282294, 10565849920554896079, 6714485655098797238, 14378805054415744603, 6695708336391624161, 11612540319018378621, 190362682107802705, 5330698521170518273, 5623024722781621727, 15909656730554914943, 8512793983150571299, 3064526504596760212, 12752800169681917094, 8667404429558684950, 8570282332221527991, 5661325742730998621, 2659830348858478401]

def ksB0j0 : List Nat :=
  [2570915578938305692, 14970023824243876474, 4864350644775030854, 7137778069155328297, 14205465979648837146, 11510169300970635358, 319689657562367910, 17242565058298814990, 5154468825421430239, 5487619627323115420, 10463397590853653510, 4116000829085186538, 3913299321901200033, 6039840396383520070, 6479693019222645247, 9336789066971500721, 9900516274586178226, 8221735212864499979, 9256207995089403607, 745781702272772548, 1880726294109032116, 13941191422559475238, 7713502259891273545, 1250500014419658761, 11156319625846322628]

/-- The 288 SHAKE128 output bytes for round constant (r = 0, j = 0). -/
def skb0j0 : List Nat :=
  [123, 25, 168, 29, 28, 20, 199, 213, 161, 226, 28, 163, 100, 210, 100, 89, 184, 161, 55, 188, 231, 30, 196, 252, 246, 182, 180, 152, 197, 104, 68, 255, 152, 170, 103, 151, 188, 63, 12, 193, 242, 33, 172, 196, 211, 178, 199, 116, 57, 224, 236, 31, 90, 142, 164, 21, 98, 51, 239, 217, 152, 152, 84, 73, 182, 171, 255, 35, 239, 142, 253, 247, 207, 138, 195, 192, 133, 112, 161, 146, 182, 172, 158, 225, 32, 165, 46, 93, 91, 174, 10, 203, 3, 199, 139, 199, 225, 149, 62, 174, 65, 239, 235, 92, 125, 229, 253, 238, 228, 7, 40, 161, 81, 180, 134, 205, 217, 77, 164, 2, 1, 161, 17, 207, 15, 114, 250, 73, 223, 77, 163, 124, 49, 255, 8, 78, 127, 216, 32, 227, 128, 116, 202, 220, 35, 191, 197, 99, 6, 133, 35, 118, 148, 102, 66, 143, 158, 98, 135, 42, 166, 148, 110, 229, 47, 12, 251, 176, 156, 172, 34, 6, 25, 186, 173, 35, 122, 226, 48, 131, 90, 53, 192, 207, 70, 16, 194, 148, 35, 165, 129, 67, 41, 177, 147, 25, 86, 123, 14, 99, 26, 134, 221, 113, 11, 244, 35, 197, 94, 0, 246, 232, 254, 85, 188, 159, 166, 7, 95, 189, 12, 196, 111, 4, 14, 162, 118, 196, 144, 229, 73, 239, 223, 189, 17, 81, 22, 90, 136, 71, 156, 71, 14, 245, 249, 240, 39, 76, 6, 148, 130, 226, 171, 116, 53, 145, 234, 249, 213, 80, 242, 248, 30, 57, 161, 178, 178, 237, 255, 212, 78, 54, 70, 133, 126, 14, 215, 210, 209, 83, 255, 25, 88, 88, 120, 126, 236, 89]

/-- Keccak state after absorbing the padded rc input (r = 1, j = 0). -/
def ksA1j0 : List Nat :=
  [1633022534473086863, 6549434796678084664, 9846024496199649153, 6550355821806925274, 2520516271417130228, 16020188760228595575, 8584362331578425978, 5440334667946641380, 18066493034289945070, 6097352009015097324, 15507648657282909363, 9111814995180279360, 61467318610473564, 10325476247582774502, 374669362177989782, 4716128591732454279, 15400974590386029756, 6649487443882653280, 10383348883927011787, 11170419945460149533, 14391804341667451361, 9691600628368929549, 2763616082599569985, 3083705880915145211, 2023516335989336211]

def ksB1j0 : List Nat :=
  [17813455941568991754, 15124703394965380979, 10963020139127035410, 11966808979969810030, 3322623528850721197, 11396964312714793988, 7063114618061944399, 8311427837289672142, 17464205199357526416, 13054109213393800423, 5914538149450445097, 10240057283085937610, 14726285041993255375, 7177509232708866321, 501966074497689830, 7924565842071946297, 2419749839599200371, 16857065652965294653, 5581188401879418987, 5198830966877460858, 2294309590845421679, 4793643426684892837, 8312186876160688283, 11470265664569639246, 13361147111159585622]

/-- The 288 SHAKE128 output bytes for round constant (r = 1, j = 0). -/
def skb1j0 : List Nat :=
  [143, 247, 121, 205, 87, 169, 169, 22, 56, 120, 148, 71, 63, 68, 228, 90, 129, 71, 198, 225, 28, 27, 164, 136, 218, 181, 54, 39, 234, 137, 231, 90, 244, 252, 104, 208, 49, 172, 250, 34, 119, 135, 33, 128, 204, 36, 83, 222, 122, 226, 249, 4, 15, 200, 33, 119, 228, 199, 51, 110, 142, 243, 127, 75, 238, 217, 235, 189, 177, 19, 185, 250, 236, 247, 219, 215, 88, 37, 158, 84, 179, 68, 233, 110, 74, 60, 54, 215, 64, 86, 204, 46, 118, 171, 115, 126, 92, 178, 18, 91, 51, 96, 218, 0, 230, 148, 231, 193, 240, 117, 75, 143, 150, 92, 215, 192, 204, 23, 51, 5, 135, 179, 70, 145, 247, 13, 115, 65, 188, 196, 198, 198, 202, 64, 187, 213, 96, 182, 11, 135, 153, 185, 71, 92, 203, 17, 107, 237, 203, 16, 25, 144, 29, 45, 23, 201, 193, 77, 5, 155, 225, 81, 3, 54, 204, 245, 185, 199, 10, 146, 74, 147, 204, 27, 54, 247, 115, 95, 14, 134, 154, 189, 229, 209, 18, 214, 30, 98, 187, 120, 36, 152, 110, 30, 14, 74, 93, 165, 18, 166, 173, 137, 128, 215, 126, 84, 28, 46, 4, 84, 43, 161, 168, 38, 42, 158, 79, 118, 115, 185, 82, 57, 5, 98, 206, 173, 241, 9, 149, 31, 88, 115, 144, 65, 60, 120, 25, 82, 93, 242, 231, 204, 125, 123, 42, 131, 41, 181, 41, 113, 125, 64, 28, 169, 20, 82, 202, 43, 253, 69, 216, 253, 27, 142, 207, 9, 40, 245, 56, 70, 94, 204, 17, 209, 178, 123, 158, 162, 155, 99, 230, 104, 187, 55, 124, 87, 247, 6]

/-- Keccak state after absorbing the padded rc input (r = 2, j = 0). -/
def ksA2j0 : List Nat :=
  [17059586995721368749, 15052776951771101130, 9864397656581923365, 11627973267126393391, 8009427418109730774, 14886204709457049259, 1795961462740688632, 9518765113810469052, 2492897672523251088, 16968533434642584621, 4192186032976276853, 4204045942213204561, 9930165230541915860, 16386417870044681711, 8588023260060959484, 16940888721454341926, 5398477223271866256, 10777370499565841374, 4855892470898612479, 15809281936233303955, 10549329015390269168, 15018379065887668007, 3534783106178744628, 11578360140689403018, 6492771866281881555]

def ksB2j0 : List Nat :=
  [1058418382854771829, 14971548825528828263, 11354435943254795089, 4774451992748048997, 4872218578738978396, 3831201072586987880, 11301200734884197284, 3743624346871415341, 8372763387316601029, 16784347830027520977, 18046426680685254397, 7139720468505747555, 17897888480617458360, 6454788207747605912, 209745862204442021, 18446112646918933519, 10516898021499124315, 15896169108567677823, 2485914929400532545, 11954082873881478679, 5845765700597486654, 12018093914037068989, 1616162117331331205, 6486456854923000295, 116833361572738391]

/-- The 288 SHAKE128 output bytes for round constant (r = 2, j = 0). -/
def skb2j0 : List Nat :=
  [173, 116, 216, 174, 252, 211, 191, 236, 202, 247, 128, 117, 226, 52, 230, 208, 37, 226, 194, 163, 103, 97, 229, 136, 47, 154, 206, 44, 20, 220, 94, 161, 214, 95, 180, 14, 205, 51, 39, 111, 171, 54, 239, 16, 80, 108, 150, 206, 248, 30, 243, 88, 111, 137, 236, 24, 188, 192, 13, 61, 112, 114, 25, 132, 144, 125, 37, 168, 57, 141, 152, 34, 45, 212, 53, 115, 65, 87, 124, 235, 117, 173, 231, 95, 252, 162, 45, 58, 81, 90, 10, 173, 130, 197, 87, 58, 212, 198, 98, 55, 170, 8, 207, 137, 239, 85, 32, 221, 59, 64, 104, 227, 252, 194, 185, 90, 167, 201, 46, 119, 38, 31, 181, 21, 137, 32, 26, 235, 144, 31, 40, 165, 110, 62, 235, 74, 222, 107, 101, 79, 94, 233, 144, 149, 255, 216, 103, 131, 121, 152, 99, 67, 147, 143, 47, 235, 40, 218, 101, 219, 240, 238, 14, 197, 216, 190, 102, 146, 117, 84, 205, 85, 233, 65, 176, 14, 103, 1, 16, 139, 85, 160, 197, 207, 81, 35, 161, 254, 84, 15, 147, 157, 101, 66, 231, 144, 202, 66, 66, 66, 92, 158, 203, 181, 251, 152, 157, 67, 104, 153, 164, 178, 19, 41, 43, 53, 164, 243, 39, 42, 49, 238, 213, 156, 45, 66, 198, 71, 130, 6, 244, 51, 197, 0, 103, 161, 240, 7, 50, 116, 209, 139, 99, 147, 108, 251, 237, 232, 253, 86, 96, 183, 115, 201, 113, 250, 99, 224, 222, 48, 240, 97, 21, 99, 184, 106, 194, 252, 190, 18, 98, 248, 152, 37, 45, 15, 173, 3, 148, 89, 165, 197, 205, 25, 192, 42, 233, 2]

/-- Keccak state after absorbing the padded rc input (r = 3, j = 0). -/
def ksA3j0 : List Nat :=
  [10909272525892270460, 13704426911244752898, 4156426291626356010, 3245687938311713582, 14004257632318701802, 6314912362916945852, 17011735135616202722, 249298964292197661, 7442344933537285848, 10806392752802544429, 17201645649447406717, 12652982993120628051, 6684908503695118469, 2193843666239672933, 4546656551355038489, 10806892678294883358, 13723536942567128178, 7579972325521611300, 7507009559154407342, 2505501911619453930, 4342406273424879539, 8609423192555685845, 18345427069328966197, 13278783780314613537, 3846302889871637214]

def ksB3j0 : List Nat :=
  [14089528051394765998, 8310755628022500751, 9185891089829577152, 6170683355101517542, 14653087633724298572, 12370723104999591952, 4298770299231859143, 12308887126924339926, 15622938626819809658, 13609871189107349289, 4338848529823320492, 10928990551940298415, 2741520201398992432, 3263823076049773824, 9084296972327412278, 15823872231637694736, 18194962159692707139, 144381422360688374, 16731497215198749734, 6133765130721259750, 12986237232194631350, 3760996722422830782, 3650839635941049158, 11541875887289229001, 3828337428805427462]

/-- The 288 SHAKE128 output bytes for round constant (r = 3, j = 0). -/
def skb3j0 : List Nat :=
  [124, 185, 188, 255, 143, 133, 101, 151, 2, 24, 12, 167, 170, 231, 47, 190, 42, 173, 123, 199, 176, 151, 174, 57, 46, 243, 214, 198, 251, 255, 10, 45, 234, 192, 104, 109, 30, 30, 89, 194, 188, 31, 99, 19, 86, 19, 163, 87, 226, 119, 111, 75, 249, 210, 21, 236, 29, 93, 130, 81, 22, 176, 117, 3, 216, 6, 107, 43, 73, 133, 72, 103, 45, 187, 38, 54, 244, 4, 248, 149, 125, 204, 116, 119, 148, 133, 184, 238, 83, 141, 3, 110, 254, 108, 152, 175, 133, 80, 188, 174, 221, 144, 197, 92, 101, 210, 244, 226, 48, 25, 114, 30, 25, 59, 56, 83, 11, 248, 24, 63, 30, 76, 137, 47, 162, 203, 249, 149, 114, 252, 169, 139, 35, 204, 115, 190, 36, 218, 1, 110, 171, 120, 49, 105, 174, 55, 220, 146, 107, 65, 46, 104, 234, 195, 35, 194, 182, 84, 197, 34, 179, 239, 234, 165, 127, 83, 67, 60, 174, 100, 73, 252, 28, 15, 136, 195, 143, 13, 92, 31, 54, 188, 85, 115, 192, 193, 183, 250, 70, 215, 122, 127, 230, 214, 61, 90, 209, 171, 162, 85, 76, 85, 206, 70, 145, 57, 90, 203, 16, 208, 55, 0, 31, 163, 173, 171, 199, 241, 182, 176, 207, 76, 168, 59, 214, 42, 180, 108, 160, 243, 209, 170, 122, 225, 82, 63, 232, 211, 207, 216, 41, 23, 145, 1, 189, 249, 223, 188, 172, 73, 88, 234, 191, 175, 54, 60, 175, 118, 0, 178, 0, 147, 171, 151, 48, 190, 241, 20, 25, 214, 11, 38, 0, 101, 171, 145, 203, 109, 75, 45, 54, 98, 187, 53, 247, 231, 17, 126]

/-- Keccak state after absorbing the padded rc input (r = 4, j = 0). -/
def ksA4j0 : List Nat :=
  [16790875957684932626, 18061704141654571181, 13710199623009976718, 4649025035389196734, 15549071103184977080, 17184314330945093007, 4623560800969093378, 12993291988827018218, 3291741900658855328, 16525217813082930184, 16491515302483282478, 13871215129609691132, 9084361617728765998, 10005160279855263539, 2764501368810010966, 18151995352654632595, 12885117011764323168, 9612217425715530009, 8594819170145683438, 4234473794195545099, 6018524912764250177, 18364031911711520978, 9636918459501800307, 10022141574756103093, 14132817716659495771]

def ksB4j0 : List Nat :=
  [16293272399408946249, 8893297128372006119, 13011230459345209340, 9763264950991099847, 3084025813913222997, 15722013324072495113, 11759759989814860723, 6744446069461492598, 1901009624767658167, 9347762972033685293, 8886915437963916640, 3647820672618497645, 10964903334844678176, 18034055547069339598, 16506596446929236045, 18328441230626025519, 16225154812884931070, 16118103791673179265, 8069060362926901330, 6938715948399303095, 16792319181086356078, 5390918289656043305, 2865106915917696288, 4860239478808637988, 6705399281825059116]

/-- The 288 SHAKE128 output bytes for round constant (r = 4, j = 0). -/
def skb4j0 : List Nat :=
  [18, 16, 117, 189, 184, 44, 5, 233, 173, 184, 133, 201, 56, 16, 168, 250, 142, 65, 52, 217, 234, 105, 68, 190, 190, 89, 69, 90, 163, 167, 132, 64, 184, 188, 161, 44, 201, 101, 201, 215, 143, 253, 162, 108, 214, 242, 122, 238, 2, 241, 46, 67, 13, 48, 42, 64, 234, 147, 246, 240, 56, 114, 81, 180, 160, 77, 10, 121, 209, 157, 174, 45, 8, 252, 195, 240, 11, 94, 85, 229, 46, 74, 111, 180, 202, 161, 221, 228, 252, 223, 104, 227, 170, 116, 128, 192, 46, 128, 234, 163, 194, 34, 18, 126, 51, 239, 158, 209, 67, 120, 217, 138, 86, 121, 0, 21, 89, 123, 93, 38, 147, 86, 133, 143, 153, 215, 232, 251, 96, 35, 142, 103, 167, 33, 209, 178, 25, 9, 152, 43, 210, 116, 101, 133, 238, 71, 64, 121, 127, 238, 70, 119, 11, 220, 185, 9, 123, 223, 195, 58, 65, 232, 38, 73, 133, 24, 134, 83, 73, 92, 114, 251, 235, 84, 29, 226, 231, 108, 157, 154, 158, 86, 107, 123, 252, 135, 3, 148, 42, 45, 145, 180, 199, 151, 216, 179, 190, 21, 126, 135, 85, 191, 110, 76, 35, 169, 204, 42, 9, 168, 76, 199, 209, 207, 47, 218, 179, 27, 196, 164, 103, 15, 51, 163, 118, 35, 8, 113, 247, 21, 153, 93, 183, 248, 223, 134, 46, 190, 97, 26, 45, 23, 158, 128, 229, 236, 185, 129, 96, 53, 198, 132, 129, 170, 84, 123, 109, 134, 192, 35, 147, 169, 159, 50, 32, 192, 233, 13, 125, 41, 43, 152, 206, 23, 187, 182, 248, 213, 69, 250, 77, 48, 241, 69, 3, 54, 19, 229]

/-- Keccak state after absorbing the padded rc input (r = 5, j = 0). -/
def ksA5j0 : List Nat :=
  [4883834357656776824, 6802296987670187615, 3314800177345891477, 15411749732051020637, 14277414293622490573, 2047274338437164586, 7979582291166819827, 474289778992312165, 10193106920353736098, 16689225348132546287, 7172143179590585768, 10428851161039858776, 3601213539796739811, 9562150254093507963, 4537348863469855462, 14079306770503752212, 5463651180041737514, 13843803841632565245, 7999175886718731245, 15386682797719334191, 5276800896429933013, 3912269388749916656, 10301621523879099867, 8341244088849312374, 7291920662093650839]

def ksB5j0 : List Nat :=
  [12434369565390382397, 17683922439028671327, 13481174465698188957, 4283177147437058306, 12252279346922376205, 15832385387039048115, 11900288696454538958, 6382196989350302777, 2302577933869846750, 5555370706472848778, 2623718912587404324, 13877488448492214989, 8968044479004333642, 8783122141706898849, 17727044757320807701, 8924207118795508861, 17850593245611011197, 17626908802716623170, 4296509845687881380, 16241173953773763716, 5281583053603001445, 15164258932467221465, 10346688262580889438, 15802381690929950776, 17148401621653728139]

/-- The 288 SHAKE128 output bytes for round constant (r = 5, j = 0). -/
def skb5j0 : List Nat :=
  [120, 240, 250, 253, 120, 221, 198, 67, 95, 142, 202, 246, 17, 157, 102, 94, 149, 140, 26, 224, 50, 137, 0, 46, 93, 107, 31, 242, 185, 136, 225, 213, 205, 5, 116, 178, 167, 144, 35, 198, 42, 238, 81, 244, 41, 97, 105, 28, 243, 245, 254, 240, 208, 43, 189, 110, 101, 111, 111, 133, 10, 4, 149, 6, 162, 165, 66, 25, 189, 48, 117, 141, 239, 166, 226, 227, 7, 10, 156, 231, 168, 205, 188, 225, 56, 146, 136, 99, 88, 108, 51, 101, 224, 184, 186, 144, 227, 102, 233, 103, 162, 20, 250, 49, 123, 157, 39, 96, 254, 148, 179, 132, 230, 162, 36, 93, 192, 230, 247, 62, 20, 218, 160, 147, 233, 190, 99, 195, 42, 21, 8, 243, 204, 201, 210, 75, 253, 119, 178, 16, 63, 18, 31, 192, 237, 131, 189, 103, 22, 200, 2, 111, 47, 173, 172, 125, 123, 122, 136, 213, 213, 65, 43, 38, 117, 246, 58, 73, 61, 165, 5, 87, 61, 193, 143, 172, 95, 3, 221, 205, 195, 233, 105, 245, 157, 206, 1, 15, 192, 192, 22, 187, 2, 137, 14, 31, 236, 230, 112, 59, 13, 204, 41, 146, 38, 215, 8, 170, 179, 65, 140, 61, 160, 238, 183, 219, 206, 230, 196, 220, 132, 81, 38, 165, 57, 212, 202, 244, 88, 30, 146, 88, 222, 16, 247, 103, 110, 102, 244, 31, 138, 205, 236, 82, 57, 164, 24, 77, 36, 20, 63, 47, 115, 82, 105, 36, 205, 26, 247, 194, 55, 190, 150, 192, 74, 214, 244, 92, 240, 228, 116, 124, 161, 205, 78, 139, 13, 235, 227, 121, 21, 181, 142, 237, 72, 29, 3, 246]

/-- Keccak state after absorbing the padded rc input (r = 0, j = 1). -/
def ksA0j1 : List Nat :=
  [2151322601962883378, 15670828633538810339, 7083137164143526093, 16489519574006150740, 18249690441179524701, 17839654159999544541, 9508416893247633588, 84377794108555550, 5387048969318301737, 13611466980970492186, 17923082435899743742, 14178366311589067091, 3013955497711052330, 11315869637319899060, 11907216243216268103, 13419399895403560876, 4845750181570790687, 6178232278861142138, 7851631078797955239, 8906147523591466144, 14575183123647861258, 12517996197332402886, 8725071504817990074, 11235949581097927661, 15162017403846888591]

def ksB0j1 : List Nat :=
  [1849666424832543007, 1115064555097280420, 15742664604754285875, 15290052624388400351, 16840138319134126102, 4031160026601764128, 12404347900774676542, 16084250573202842670, 6277012268691188497, 5883180529824012147, 2772582895410705938, 12651390305367996254, 18369990999545352043, 7971825136086517906, 9679656649368934963, 3156397430722827335, 7186113499875225787, 11587040452117591123, 14371672428258963640, 4260230416192525104, 7765613836148238273, 8493368876892203703, 484487310574387655, 14116834436192774624, 3782469857642497104]

/-- The 288 SHAKE128 output bytes for round constant (r = 0, j = 1). -/
def skb0j1 : List Nat :=
  [50, 73, 68, 31, 130, 8, 219, 29, 227, 209, 25, 86, 157, 247, 121, 217, 205, 128, 36, 4, 185, 91, 76, 98, 84, 182, 124, 245, 175, 138, 214, 228, 93, 238, 88, 231, 195, 236, 67, 253, 221, 172, 151, 162, 240, 46, 147, 247, 180, 56, 89, 98, 201, 174, 244, 131, 30, 129, 197, 28, 40, 197, 43, 1, 41, 0, 218, 235, 126, 164, 194, 74, 26, 113, 180, 64, 26, 165, 229, 188, 254, 221, 216, 207, 131, 148, 187, 248, 83, 185, 161, 73, 10, 173, 195, 196, 42, 38, 231, 121, 142, 184, 211, 41, 180, 183, 20, 41, 123, 11, 10, 157, 71, 187, 170, 8, 22, 238, 62, 165, 172, 127, 113, 24, 27, 73, 59, 186, 31, 197, 207, 194, 29, 144, 63, 67, 122, 216, 94, 33, 134, 125, 189, 85, 167, 80, 43, 207, 221, 152, 246, 108, 160, 236, 228, 100, 252, 253, 152, 123, 10, 146, 76, 13, 212, 115, 69, 202, 31, 73, 28, 61, 208, 85, 171, 25, 164, 207, 51, 20, 78, 129, 121, 15, 51, 149, 126, 192, 12, 46, 121, 218, 223, 36, 179, 9, 218, 45, 49, 212, 22, 240, 110, 16, 148, 48, 180, 233, 32, 53, 90, 170, 175, 142, 241, 55, 62, 120, 9, 216, 177, 24, 37, 172, 46, 228, 32, 166, 173, 188, 54, 223, 17, 107, 27, 190, 102, 109, 28, 87, 115, 151, 167, 125, 133, 65, 165, 81, 18, 118, 71, 31, 116, 49, 122, 38, 94, 183, 71, 234, 115, 196, 146, 175, 107, 15, 6, 87, 124, 81, 239, 254, 146, 136, 247, 135, 185, 156, 161, 110, 51, 26, 98, 5, 112, 12, 85, 134]

/-- Keccak state after absorbing the padded rc input (r = 1, j = 1). -/
def ksA1j1 : List Nat :=
  [9436582551879308387, 15557311024939457379, 3727684440309833772, 986000462215977171, 10839157105239749686, 10068385797146451985, 3461364515021741626, 2626423784509692187, 10519300222588442190, 14321417632355764610, 6831222627753934005, 6137100575491753709, 11098168996011806715, 12404847403573701621, 11267401117199162667, 13875511135166400411, 7858098946628626098, 13468912911952034257, 14894062574009631976, 8236950879814017971, 3047515422709278287, 18340966901655894197, 10607261940957885283, 13336427348898668390, 2788665557651305813]

def ksB1j1 : List Nat :=
  [373345772277553460, 1413409499931527807, 2128121149681191164, 5258368382909023724, 3417513568553676221, 4789643610912026626, 12867726016304867033, 14510154825423012260, 9169032234587657215, 13394412660000398410, 12288429689398705388, 10333148400153666020, 8890339090023899232, 740722427960764862, 16469129563076915584, 13931227264872206050, 2403954795331683582, 11610888245693233514, 14967809059442495143, 15356528575680072378, 801400339528792852, 8526553054598959389, 18045229340155285797, 5088363310759551923, 16218921412438734178]

/-- The 288 SHAKE128 output bytes for round constant (r = 1, j = 1). -/
def skb1j1 : List Nat :=
  [99, 84, 106, 114, 213, 121, 245, 130, 99, 219, 200, 117, 243, 171, 230, 215, 44, 32, 107, 147, 63, 101, 187, 51, 211, 24, 193, 66, 50, 250, 174, 13, 54, 116, 119, 122, 245, 107, 108, 150, 17, 160, 128, 180, 137, 23, 186, 139, 58, 94, 3, 244, 175, 60, 9, 48, 27, 89, 86, 65, 132, 238, 114, 36, 78, 86, 18, 157, 209, 15, 252, 145, 130, 201, 148, 96, 117, 229, 191, 198, 181, 60, 226, 92, 201, 96, 205, 94, 237, 6, 8, 41, 117, 92, 43, 85, 251, 143, 137, 184, 230, 157, 4, 154, 245, 235, 239, 102, 253, 222, 38, 172, 43, 221, 126, 108, 158, 217, 93, 156, 155, 7, 146, 160, 220, 183, 143, 192, 178, 166, 171, 163, 91, 147, 13, 109, 209, 185, 146, 155, 238, 48, 235, 186, 232, 196, 72, 186, 255, 86, 178, 206, 179, 227, 167, 23, 47, 135, 79, 114, 79, 102, 28, 106, 33, 243, 74, 42, 52, 89, 255, 118, 0, 100, 46, 5, 127, 202, 148, 157, 115, 112, 157, 19, 252, 72, 190, 13, 233, 154, 136, 29, 236, 5, 112, 41, 47, 122, 249, 72, 189, 45, 184, 220, 123, 114, 109, 47, 2, 112, 33, 205, 124, 59, 120, 66, 217, 102, 231, 188, 162, 88, 147, 178, 164, 65, 66, 133, 239, 108, 94, 201, 255, 19, 180, 220, 60, 242, 62, 127, 74, 156, 81, 254, 88, 131, 226, 185, 236, 60, 249, 19, 178, 69, 137, 170, 228, 33, 142, 250, 184, 183, 102, 143, 96, 224, 164, 161, 76, 212, 96, 123, 190, 41, 196, 171, 31, 147, 71, 10, 128, 113, 21, 151, 20, 26, 142, 228]

/-- Keccak state after absorbing the padded rc input (r = 2, j = 1). -/
def ksA2j1 : List Nat :=
  [135587857130979503, 176663431651744638, 7070933486199202495, 9589798181298822050, 16029362120864299648, 16691690852545884765, 5055836208311512669, 9272715694216131453, 5363377512866955430, 18378373081923638598, 7647082024868530969, 13463978571379410762, 2394003771307872906, 8314970555386794905, 7076441024209419663, 12242565796095445117, 4756228432238509843, 3576005647631860243, 1020137045271806124, 3357958643182995321, 17887081159645824649, 10831469353854721944, 15654408403701882738, 12103181135973118971, 13984177158223551350]

def ksB2j1 : List Nat :=
  [12600682277688164515, 3325355238688312706, 9523656265929522309, 9295484854671602879, 17479151887543439790, 6053784845692100854, 17907484306357402233, 790809159149731383, 17419867157244759920, 12013396941249741760, 10103732549098994450, 7539457157381722704, 17682702086754470558, 12713065429350175254, 3309371135973851863, 12468644941696877104, 4058612925905053125, 13495386124244460856, 14339761240210056186, 2923759133948778363, 3459517096135721750, 13338455732225210077, 3879925299155962193, 8792915400103868073, 18216094172780392901]

/-- The 288 SHAKE128 output bytes for round constant (r = 2, j = 1). -/
def skb2j1 : List Nat :=
  [175, 0, 38, 12, 112, 180, 225, 1, 126, 91, 103, 128, 116, 162, 115, 2, 191, 98, 81, 211, 138, 0, 33, 98, 162, 219, 0, 16, 163, 206, 21, 133, 128, 250, 55, 246, 235, 187, 115, 222, 93, 114, 162, 222, 100, 204, 164, 231, 93, 46, 247, 150, 62, 240, 41, 70, 125, 51, 241, 128, 203, 77, 175, 128, 166, 192, 192, 122, 110, 139, 110, 74, 70, 213, 168, 249, 241, 24, 13, 255, 25, 75, 144, 236, 149, 228, 31, 106, 74, 135, 138, 234, 44, 169, 217, 186, 138, 82, 192, 251, 190, 53, 57, 33, 153, 147, 169, 95, 170, 181, 100, 115, 143, 253, 0, 114, 158, 145, 52, 98, 125, 200, 157, 71, 186, 84, 230, 169, 19, 127, 48, 62, 143, 132, 1, 66, 19, 66, 227, 165, 48, 134, 160, 49, 172, 128, 164, 221, 60, 65, 40, 14, 121, 7, 96, 65, 152, 221, 153, 46, 137, 134, 69, 125, 139, 173, 59, 248, 163, 192, 41, 49, 197, 157, 222, 174, 130, 77, 0, 154, 248, 8, 38, 46, 133, 252, 166, 85, 234, 210, 42, 132, 191, 116, 185, 201, 57, 50, 0, 129, 174, 17, 32, 128, 8, 108, 146, 242, 246, 224, 30, 42, 62, 93, 3, 84, 121, 186, 80, 69, 25, 42, 132, 248, 55, 190, 62, 136, 189, 132, 249, 10, 112, 79, 17, 150, 226, 204, 191, 241, 192, 131, 244, 76, 222, 40, 184, 166, 18, 251, 152, 182, 56, 171, 55, 140, 80, 146, 3, 193, 86, 136, 161, 104, 158, 10, 15, 102, 220, 147, 101, 245, 22, 82, 183, 186, 166, 225, 109, 176, 215, 2, 167, 173, 131, 63, 237, 45]

/-- Keccak state after absorbing the padded rc input (r = 3, j = 1). -/
def ksA3j1 : List Nat :=
  [15598467638730649052, 16579202214721377452, 14543084259725284543, 16299510746295707237, 12797921150166908105, 7934570359641781676, 12073487056670264095, 15217517825101109819, 5056359916344476676, 149779674075757345, 12138294269932448200, 16438199484875997684, 14908019860821355286, 12723014034378511615, 5959048174739403775, 9827070803336438427, 3806559549850228616, 3098058031137644839, 15291206585708548420, 2566712626418804058, 1080399178986520136, 15305672144335193910, 5878971524080587123, 10714824999741957291, 1244235569195763528]

def ksB3j1 : List Nat :=
  [12978443191795266563, 17215529369563558281, 1193906609430092645, 6482939610526710872, 6282061723027122239, 8776418701767940092, 1884631007982661484, 9872381105817495437, 8700493353948486680, 7175628882742427457, 14829819062343005626, 3541942685250815707, 6116985005184965295, 5676924645575975045, 4266872611845837208, 16865114733503715379, 5016325541763409747, 12021145356121725721, 2622340042709471086, 17462048213702762487, 14799602808201906376, 8471741449048499133, 6417332024432120463, 15012850994881096044, 6013427083823550549]

/-- The 288 SHAKE128 output bytes for round constant (r = 3, j = 1). -/
def skb3j1 : List Nat :=
  [220, 109, 247, 86, 172, 227, 120, 216, 172, 84, 214, 235, 146, 40, 21, 230, 191, 20, 128, 231, 20, 106, 211, 201, 101, 38, 158, 77, 170, 126, 51, 226, 201, 60, 40, 211, 122, 89, 155, 177, 172, 181, 202, 243, 179, 65, 29, 110, 31, 139, 27, 141, 130, 164, 141, 167, 59, 154, 83, 8, 214, 123, 47, 211, 4, 132, 60, 222, 141, 204, 43, 70, 33, 251, 219, 235, 209, 31, 20, 2, 200, 169, 123, 186, 83, 226, 115, 168, 244, 1, 11, 147, 86, 55, 32, 228, 22, 171, 185, 204, 19, 237, 227, 206, 255, 212, 112, 215, 218, 57, 145, 176, 255, 51, 200, 22, 190, 202, 178, 82, 155, 34, 123, 95, 212, 196, 96, 136, 136, 151, 49, 25, 190, 157, 211, 52, 39, 97, 129, 119, 93, 131, 254, 42, 68, 145, 69, 152, 95, 71, 53, 212, 90, 229, 51, 226, 136, 203, 158, 35, 72, 126, 29, 63, 84, 89, 254, 14, 3, 52, 139, 248, 81, 177, 28, 180, 137, 241, 35, 245, 191, 216, 233, 238, 101, 91, 18, 86, 188, 155, 145, 16, 88, 252, 192, 73, 58, 7, 248, 89, 63, 40, 28, 114, 218, 93, 46, 87, 252, 23, 249, 78, 79, 26, 204, 121, 108, 47, 126, 163, 234, 141, 39, 26, 141, 167, 135, 67, 79, 190, 1, 137, 24, 28, 191, 180, 155, 92, 190, 120, 65, 63, 229, 99, 115, 244, 148, 99, 186, 117, 69, 142, 221, 25, 206, 205, 219, 6, 43, 49, 27, 130, 39, 49, 175, 218, 112, 250, 115, 229, 227, 84, 133, 96, 55, 52, 227, 124, 200, 78, 152, 17, 234, 154, 8, 250, 54, 59]

/-- Keccak state after absorbing the padded rc input (r = 4, j = 1). -/
def ksA4j1 : List Nat :=
  [2745064673717779212, 1792489565828779937, 10195398083613013047, 1644757769632574504, 16378551887362326079, 7002468902568458227, 3544500046067750740, 13589292480693006634, 8687718507353526138, 18092641887513562792, 7526357127212011174, 17557047368776114360, 3662757073529258616, 12486952752658532389, 4543126771059855781, 17003099877570203938, 12834119734258989618, 3306519374167185580, 4254229958203054054, 3438130351373729989, 3999233547557139066, 16199416760719506834, 7131357939273917811, 8084490275653678293, 16963975805477673487]

def ksB4j1 : List Nat :=
  [3859664077183631618, 5355038470603682957, 1694943611213003957, 9124944445629221758, 7246366767652518469, 6294517195757078299, 11941275973314521719, 12571877794790733682, 7869929521026023511, 17013600292625573577, 9719844704137638187, 11203392955942104679, 16598075626966896907, 12355366137809472163, 8169126460868552400, 8168408603111474330, 6860740306690017508, 6846493167200368132, 10270706649428630852, 10202951333420714506, 8941514116224730971, 10765918788740879679, 9742673132843049980, 799539955088246157, 7196972837161208646]

/-- The 288 SHAKE128 output bytes for round constant (r = 4, j = 1). -/
def skb4j1 : List Nat :=
  [12, 251, 107, 218, 198, 109, 24, 38, 161, 143, 209, 90, 195, 51, 224, 24, 55, 180, 115, 29, 138, 84, 125, 141, 40, 108, 131, 40, 122, 90, 211, 22, 63, 254, 136, 13, 42, 78, 76, 227, 243, 247, 79, 192, 93, 196, 45, 97, 84, 87, 57, 40, 3, 152, 48, 49, 42, 241, 151, 20, 131, 221, 150, 188, 122, 207, 100, 243, 243, 249, 144, 120, 168, 78, 153, 17, 240, 249, 21, 251, 166, 142, 51, 76, 238, 253, 114, 104, 184, 96, 155, 136, 143, 41, 167, 243, 120, 194, 66, 250, 38, 186, 212, 50, 37, 72, 76, 173, 94, 145, 74, 173, 165, 17, 151, 78, 186, 109, 12, 63, 34, 81, 15, 155, 64, 37, 247, 235, 50, 122, 86, 117, 230, 243, 27, 178, 172, 152, 46, 36, 218, 29, 227, 45, 230, 151, 132, 107, 155, 15, 10, 59, 197, 192, 30, 173, 86, 177, 182, 47, 122, 242, 247, 255, 184, 33, 128, 55, 2, 193, 221, 96, 7, 72, 144, 53, 141, 52, 226, 230, 29, 235, 80, 74, 181, 60, 171, 244, 59, 166, 133, 23, 126, 75, 231, 148, 160, 80, 162, 126, 69, 186, 31, 170, 46, 68, 144, 100, 27, 71, 176, 45, 10, 158, 90, 87, 119, 170, 81, 234, 58, 239, 183, 165, 114, 119, 31, 230, 62, 72, 120, 174, 87, 192, 29, 228, 51, 155, 55, 109, 201, 230, 109, 0, 83, 115, 28, 236, 43, 241, 21, 174, 66, 211, 227, 134, 103, 238, 10, 10, 137, 114, 122, 155, 11, 81, 110, 164, 215, 53, 88, 230, 163, 10, 6, 114, 10, 20, 119, 171, 208, 102, 80, 249, 59, 145, 94, 113]

/-- Keccak state after absorbing the padded rc input (r = 5, j = 1). -/
def ksA5j1 : List Nat :=
  [9319536386817782974, 17345190497759018476, 8979463575242630188, 18400757475590890921, 16461194627216792780, 13563835321048329426, 6760753817462489047, 13655725816968081838, 5753198515146911420, 7951001195720687910, 11675769667100727839, 10084856172691463127, 3154119171687962841, 9841210951709864799, 8684022747158234670, 11563333448404624510, 4762253111737473428, 9992427055980699887, 2972688406992515387, 15107570344322144956, 2517096299010998506, 2797794155325514581, 2851861577999645813, 6294528658744734410, 16080669163647388462]

def ksB5j1 : List Nat :=
  [16420394926680354269, 320656640253397743, 4030917553517157025, 14776558576521989297, 927581457825007963, 17922684245046921479, 7835881472074368397, 9895759364612426822, 16397236137994476078, 3793259621077964024, 4046012026771222873, 6595427230970106704, 6994316228291458699, 16010377550062073022, 1661098224592999531, 15220379735094725432, 5890407951604936637, 16832547314904905283, 7580729094376543655, 5805703930360229040, 39551216191229048, 357742504067468779, 3607008609680974706, 1567105316920951882, 110130511310964456]

/-- The 288 SHAKE128 output bytes for round constant (r = 5, j = 1). -/
def skb5j1 : List Nat :=
  [190, 244, 153, 127, 247, 164, 85, 129, 236, 61, 104, 228, 219, 126, 182, 240, 44, 100, 229, 227, 139, 118, 157, 124, 169, 101, 181, 194, 110, 159, 92, 255, 204, 92, 211, 93, 76, 233, 113, 228, 210, 108, 251, 54, 92, 108, 60, 188, 215, 191, 183, 231, 198, 5, 211, 93, 174, 113, 131, 134, 71, 226, 130, 189, 188, 238, 162, 89, 145, 119, 215, 79, 38, 65, 163, 23, 118, 161, 87, 110, 31, 218, 209, 190, 166, 170, 8, 162, 215, 27, 46, 216, 65, 155, 244, 139, 217, 216, 181, 231, 172, 174, 197, 43, 95, 179, 89, 56, 56, 1, 147, 136, 46, 70, 199, 185, 173, 216, 131, 120, 126, 228, 140, 147, 129, 54, 121, 160, 148, 89, 156, 63, 249, 235, 22, 66, 239, 96, 187, 27, 119, 59, 172, 138, 59, 241, 181, 46, 91, 28, 65, 41, 188, 26, 140, 80, 47, 223, 168, 209, 234, 64, 0, 112, 191, 133, 238, 34, 221, 173, 104, 212, 47, 246, 224, 227, 239, 138, 44, 241, 131, 51, 115, 4, 161, 218, 70, 128, 40, 178, 240, 55, 177, 76, 88, 92, 188, 225, 16, 205, 91, 9, 230, 221, 107, 110, 223, 12, 7, 9, 131, 199, 92, 42, 186, 248, 141, 197, 14, 189, 174, 164, 190, 108, 70, 12, 120, 78, 182, 204, 84, 137, 46, 218, 91, 39, 100, 175, 142, 227, 248, 84, 47, 31, 135, 93, 164, 52, 89, 49, 168, 108, 128, 82, 38, 56, 80, 83, 233, 91, 31, 170, 135, 91, 139, 246, 15, 90, 141, 205, 16, 97, 190, 180, 86, 31, 142, 73, 48, 222, 107, 212, 229, 205, 8, 104, 13, 23]

/-! ## Theorems: arithmetic facts about `cppMod` -/

theorem tableLit : four_russians_table_ = fourRussiansLit := by decide


theorem neg_tmod (a b : Int) : Int.tmod (-a) b = -Int.tmod a b := by
  rw [Int.tmod_def, Int.tmod_def, Int.neg_tdiv]
  ring

theorem tmod_emod (a p : Int) : Int.tmod a p % p = a % p := by
  conv_rhs => rw [← Int.tmod_add_tdiv a p]
  rw [Int.add_mul_emod_self_left]

/-- On a positive modulus, the source's canonicalizing `mod()` agrees with
mathematical mod (`Int.emod`). -/
theorem cppMod_eq_emod (a p : Int) (hp : 0 < p) : cppMod a p = a % p := by
  unfold cppMod
  by_cases h : Int.tmod a p < 0
  · simp only [if_pos h]
    have h1 : -p < Int.tmod a p := by
      have h2 := Int.tmod_lt_of_pos (-a) hp
      rw [neg_tmod] at h2
      omega
    have h3 : (Int.tmod a p + p) % p = Int.tmod a p + p :=
      Int.emod_eq_of_lt (by omega) (by omega)
    have h4 : (Int.tmod a p + p) % p = Int.tmod a p % p := by
      have h5 := Int.add_mul_emod_self_left (Int.tmod a p) p 1
      rw [Int.mul_one] at h5
      exact h5
    rw [← tmod_emod a p, ← h4, h3]
  · simp only [if_neg h]
    push_neg at h
    have h2 : Int.tmod a p < p := Int.tmod_lt_of_pos a hp
    rw [← tmod_emod a p, Int.emod_eq_of_lt h h2]

theorem cppMod_nonneg (a p : Int) (hp : 0 < p) : 0 ≤ cppMod a p := by
  rw [cppMod_eq_emod a p hp]
  exact Int.emod_nonneg a (by omega)

theorem cppMod_lt (a p : Int) (hp : 0 < p) : cppMod a p < p := by
  rw [cppMod_eq_emod a p hp]
  exact Int.emod_lt_of_pos a hp

/-! ## A mod-free form of the row accumulation

`applyRowWith` reduces the row sum mod p at every accumulation step; the
following definitions defer the single reduction to the end, which is
provably equal (for p > 0) and far cheaper to evaluate. -/

theorem foldl_cppMod_chain (pre : Nat) (cs : Nat) (state : List Int) (p : Int) (hp : 0 < p)
    (l : List Nat) :
    ∀ a : Int,
      l.foldl (fun rs i => if pre.testBit i then cppMod (rs + state.getD (cs + i % 4) 0) p else rs)
          (a % p)
        = (l.foldl (fun rs i => if pre.testBit i then rs + state.getD (cs + i % 4) 0 else rs) a)
            % p := by
  induction l with
  | nil => intro a; rfl
  | cons i l ih =>
    intro a
    by_cases h : pre.testBit i
    · simp only [List.foldl_cons, if_pos h]
      rw [cppMod_eq_emod _ p hp, Int.emod_add_emod]
      exact ih (a + state.getD (cs + i % 4) 0)
    · simp only [List.foldl_cons, if_neg h]
      exact ih a

theorem foldl_groups_chain (table : List (List Nat)) (state : List Int) (p : Int) (hp : 0 < p)
    (row : Nat) (gl : List Nat) :
    ∀ a : Int,
      gl.foldl
          (fun row_sum group =>
            let pre := (table.getD group []).getD (rowMask row group) 0
            (List.range 36).foldl
              (fun rs i =>
                if pre.testBit i then cppMod (rs + state.getD (group * 4 + i % 4) 0) p else rs)
              row_sum)
          (a % p)
        = (gl.foldl
            (fun row_sum group =>
              let pre := (table.getD group []).getD (rowMask row group) 0
              (List.range 36).foldl
                (fun rs i => if pre.testBit i then rs + state.getD (group * 4 + i % 4) 0 else rs)
                row_sum)
            a) % p := by
  induction gl with
  | nil => intro a; rfl
  | cons g gl ih =>
    intro a
    simp only [List.foldl_cons]
    rw [foldl_cppMod_chain _ _ state p hp _ a]
    exact ih _

theorem applyRowWith_emod (table : List (List Nat)) (state : List Int) (p : Int) (row : Nat)
    (hp : 0 < p) :
    applyRowWith table state p row = applyRowPure table state row % p := by
  have h := foldl_groups_chain table state p hp row (List.range 9) 0
  rw [Int.zero_emod] at h
  exact h

set_option maxHeartbeats 2000000 in
set_option maxRecDepth 3000 in
/-- The row-map form of the linear layer equals the flat-accumulation form on
a positive modulus. -/
theorem lpRows_fast (state : List Int) (p : Int) (hp : 0 < p) :
    lpRows state p = linFast state p := by
  unfold lpRows
  rw [tableLit]
  have hfun : applyRowWith fourRussiansLit state p
      = fun row => applyRowPure fourRussiansLit state row % p :=
    funext fun row => applyRowWith_emod fourRussiansLit state p row hp
  rw [hfun]
  rfl

/-- The linear layer (with its precomputed table) on a 36-element state and a
positive modulus succeeds and equals the flat-accumulation form. -/
theorem linearApply_fast (state : List Int) (p : Int) (hp : 0 < p) (hs : state.length = 36) :
    linearApplyWith four_russians_table_ state p = .ok (linFast state p) := by
  unfold linearApplyWith
  rw [if_neg (by omega)]
  exact congrArg Except.ok (lpRows_fast state p hp)

/-! ## Structure of `generate_keystream`: error-freedom, global threading, and
equality with the pure per-block pipeline -/

theorem exStep_ok (g : Option Int) (v : List Int)
    (f : Option Int → List Int → Option Int × Except CipherError (List Int)) :
    exStep (g, .ok v) f = f g v := rfl

theorem exStep_error (g : Option Int) (e : CipherError)
    (f : Option Int → List Int → Option Int × Except CipherError (List Int)) :
    exStep (g, .error e) f = (g, .error e) := rfl

theorem Except_ok_bind (v : List Int) (f : List Int → Except CipherError (List Int)) :
    (Except.ok v).bind f = f v := rfl

theorem is_p_2mod3_pos (p : Int) (h : is_p_2mod3 p = true) : 0 < p := by
  unfold is_p_2mod3 at h
  rw [beq_iff_eq] at h
  by_contra hp
  push_neg at hp
  have h1 : (0 : Int) ≤ -p := by omega
  have h2 := Int.tmod_nonneg (3 : Int) h1
  rw [neg_tmod] at h2
  omega

theorem length_rc (gen : RoundKeyGenerator) (i j : Nat) (p : Int) :
    (generate_round_constant gen i j p).length = 36 := rfl

theorem length_linFast (state : List Int) (p : Int) : (linFast state p).length = 36 := rfl

theorem length_sboxLayerPure (sp : Int) (state : List Int) :
    (sboxLayerPure sp state).length = 36 := rfl

theorem length_akPure (a b : List Int) (p : Int) : (akPure a b p).length = 36 := rfl

theorem length_rkPure (a b : List Int) (p : Int) : (rkPure a b p).length = 36 := rfl

theorem length_cvPure (p : Int) (j : Nat) : (cvPure p j).length = 36 := rfl

theorem length_roundFast (sp p : Int) (key : List Int) (gen : RoundKeyGenerator)
    (j : Nat) (st : List Int) (r : Nat) : (roundFast sp p key gen j st r).length = 36 :=
  length_akPure _ _ _

theorem length_foldl_roundFast (sp p : Int) (key : List Int) (gen : RoundKeyGenerator)
    (j : Nat) (rl : List Nat) (st : List Int) :
    (rl.foldl (fun st2 ridx => roundFast sp p key gen j st2 (ridx + 1)) st).length = 36
      ∨ (rl.foldl (fun st2 ridx => roundFast sp p key gen j st2 (ridx + 1)) st) = st := by
  induction rl generalizing st with
  | nil => right; rfl
  | cons r rl ih =>
    rw [List.foldl_cons]
    rcases ih (roundFast sp p key gen j st (r + 1)) with h | h
    · left; exact h
    · left; rw [h]; exact length_roundFast _ _ _ _ _ _ _

theorem add_round_key_ok (state rk : List Int) (p : Int) (h1 : state.length = 36)
    (h2 : rk.length = 36) : add_round_key state rk p = .ok (akPure state rk p) := by
  unfold add_round_key akPure
  rw [if_neg (by omega)]

theorem generate_round_key_ok (key rc : List Int) (p : Int) (h1 : key.length = 36)
    (h2 : rc.length = 36) : generate_round_key key rc p = .ok (rkPure key rc p) := by
  unfold generate_round_key rkPure
  rw [if_neg (by omega)]

theorem sbox_layerG_ok (g : Option Int) (state : List Int) (p : Int)
    (hp2 : is_p_2mod3 p = true) (hs : state.length = 36) :
    apply_sbox_layerG g state p
      = (some (g.getD p), .ok (sboxLayerPure (g.getD p) state)) := by
  unfold apply_sbox_layerG
  rw [if_neg (by omega)]
  cases g with
  | none => simp [hp2]
  | some q => rfl

theorem truncate_ok (c : YuSCipher) (state : List Int) (hs : state.length = 36) :
    c.truncate state = .ok (state.drop c.trunc_m) := by
  unfold YuSCipher.truncate
  rw [if_neg (by omega)]

theorem key_whitening_ok (c : YuSCipher) (state : List Int) (j : Nat)
    (hkey : c.master_key.length = 36) :
    c.key_whitening state j
      = add_round_key state
          (rkPure c.master_key (generate_round_constant c.rk_gen 0 j c.p) c.p) c.p := by
  unfold YuSCipher.key_whitening
  rw [generate_round_key_ok _ _ _ hkey (length_rc _ _ _ _), Except_ok_bind]

theorem round_transform_fast (c : YuSCipher) (g : Option Int) (st rk : List Int)
    (hp2 : is_p_2mod3 c.p = true) (hst : st.length = 36) (hrk : rk.length = 36) :
    c.round_transformW four_russians_table_ g st rk
      = (some (g.getD c.p),
         .ok (akPure (linFast (sboxLayerPure (g.getD c.p) st) c.p) rk c.p)) := by
  have hp : 0 < c.p := is_p_2mod3_pos _ hp2
  unfold YuSCipher.round_transformW
  rw [sbox_layerG_ok g st c.p hp2 hst, exStep_ok,
    linearApply_fast _ _ hp (length_sboxLayerPure _ _), Except_ok_bind,
    add_round_key_ok _ _ _ (length_linFast _ _) hrk]

theorem roundStep_fast (c : YuSCipher) (j : Nat) (g : Option Int) (st : List Int)
    (ridx : Nat) (hp2 : is_p_2mod3 c.p = true) (hkey : c.master_key.length = 36)
    (hst : st.length = 36) :
    c.roundStep four_russians_table_ j (g, .ok st) ridx
      = (some (g.getD c.p),
         .ok (roundFast (g.getD c.p) c.p c.master_key c.rk_gen j st (ridx + 1))) := by
  unfold YuSCipher.roundStep
  rw [exStep_ok, generate_round_key_ok _ _ _ hkey (length_rc _ _ _ _), exStep_ok,
    round_transform_fast c g st _ hp2 hst (length_rkPure _ _ _)]
  rfl

theorem foldl_roundStep_some (c : YuSCipher) (sp : Int) (j : Nat)
    (hp2 : is_p_2mod3 c.p = true) (hkey : c.master_key.length = 36) :
    ∀ (rl : List Nat) (st : List Int), st.length = 36 →
      rl.foldl (c.roundStep four_russians_table_ j) (some sp, .ok st)
        = (some sp, .ok (rl.foldl (fun st2 ridx =>
            roundFast sp c.p c.master_key c.rk_gen j st2 (ridx + 1)) st)) := by
  intro rl
  induction rl with
  | nil => intro st _; rfl
  | cons r rl ih =>
    intro st hst
    rw [List.foldl_cons, roundStep_fast c j (some sp) st r hp2 hkey hst]
    rw [List.foldl_cons]
    exact ih _ (length_roundFast _ _ _ _ _ _ _)

theorem runRoundsW_fast (c : YuSCipher) (g : Option Int) (st : List Int) (j : Nat)
    (hp2 : is_p_2mod3 c.p = true) (hkey : c.master_key.length = 36)
    (hst : st.length = 36) :
    c.runRoundsW four_russians_table_ g st j
      = (some (g.getD c.p),
         .ok ((List.range c.level.toRounds).foldl
           (fun st2 ridx =>
             roundFast (g.getD c.p) c.p c.master_key c.rk_gen j st2 (ridx + 1)) st)) := by
  obtain ⟨k, hk⟩ : ∃ k, c.level.toRounds = k + 1 := by
    cases c.level
    · exact ⟨4, rfl⟩
    · exact ⟨5, rfl⟩
  unfold YuSCipher.runRoundsW YuSCipher.runRoundsList
  rw [hk, List.range_succ_eq_map, List.foldl_cons, List.foldl_cons,
    roundStep_fast c j g st 0 hp2 hkey hst]
  exact foldl_roundStep_some c (g.getD c.p) j hp2 hkey _ _
    (length_roundFast _ _ _ _ _ _ _)

theorem processBlock_fast (c : YuSCipher) (g : Option Int) (j : Nat)
    (hp2 : is_p_2mod3 c.p = true) (hkey : c.master_key.length = 36) :
    c.processBlockW four_russians_table_ g j
      = (some (g.getD c.p),
         .ok (blockFast (g.getD c.p) c.p c.master_key c.rk_gen
           c.level.toRounds c.trunc_m j)) := by
  have hp : 0 < c.p := is_p_2mod3_pos _ hp2
  unfold YuSCipher.processBlockW
  rw [key_whitening_ok c _ j hkey,
    add_round_key_ok _ _ _ (by rfl) (length_rkPure _ _ _),
    exStep_ok, runRoundsW_fast c g _ j hp2 hkey (length_akPure _ _ _), exStep_ok]
  have hlen : ((List.range c.level.toRounds).foldl
      (fun st2 ridx =>
        roundFast (g.getD c.p) c.p c.master_key c.rk_gen j st2 (ridx + 1))
      (akPure ((List.range 36).map fun i => cppMod ((i : Int) + 1 + (j : Int)) c.p)
        (rkPure c.master_key (generate_round_constant c.rk_gen 0 j c.p) c.p) c.p)).length
      = 36 := by
    rcases length_foldl_roundFast (g.getD c.p) c.p c.master_key c.rk_gen j
        (List.range c.level.toRounds) _ with h | h
    · exact h
    · rw [h]; exact length_akPure _ _ _
  rw [linearApply_fast _ _ hp hlen, Except_ok_bind, truncate_ok c _ (length_linFast _ _)]
  rfl

theorem blockStep_fast (c : YuSCipher) (g : Option Int) (ks : List Int) (j : Nat)
    (hp2 : is_p_2mod3 c.p = true) (hkey : c.master_key.length = 36) :
    c.blockStep four_russians_table_ (g, .ok ks) j
      = (some (g.getD c.p),
         .ok (ks ++ blockFast (g.getD c.p) c.p c.master_key c.rk_gen
           c.level.toRounds c.trunc_m j)) := by
  unfold YuSCipher.blockStep
  rw [exStep_ok, processBlock_fast c g j hp2 hkey, exStep_ok]

theorem foldl_blockStep_some (c : YuSCipher) (sp : Int)
    (hp2 : is_p_2mod3 c.p = true) (hkey : c.master_key.length = 36) :
    ∀ (jl : List Nat) (ks : List Int),
      jl.foldl (c.blockStep four_russians_table_) (some sp, .ok ks)
        = (some sp,
           .ok (ks ++ (jl.map (blockFast sp c.p c.master_key c.rk_gen
             c.level.toRounds c.trunc_m)).flatten)) := by
  intro jl
  induction jl with
  | nil => intro ks; simp
  | cons j jl ih =>
    intro ks
    rw [List.foldl_cons, blockStep_fast c (some sp) ks j hp2 hkey, Option.getD_some, ih _]
    simp [List.append_assoc]

theorem gs_fast (c : YuSCipher) (g : Option Int) (n : Nat)
    (hp2 : is_p_2mod3 c.p = true) (hkey : c.master_key.length = 36) :
    c.generate_keystream g n
      = (if n = 0 then g else some (g.getD c.p),
         .ok (((List.range n).map (blockFast (g.getD c.p) c.p c.master_key c.rk_gen
           c.level.toRounds c.trunc_m)).flatten)) := by
  have hne : c.master_key ≠ [] := by
    intro h
    rw [h] at hkey
    simp at hkey
  unfold YuSCipher.generate_keystream YuSCipher.generate_keystreamW YuSCipher.blocksLoop
  rw [if_neg hne]
  cases n with
  | zero => rfl
  | succ k =>
    rw [List.range_succ_eq_map, List.foldl_cons, blockStep_fast c g [] 0 hp2 hkey,
      foldl_blockStep_some c (g.getD c.p) hp2 hkey _ _]
    simp [List.map_map, Function.comp]

/-! ## Concrete evaluation lemmas (per-chunk) -/

/-- Two-block unrolling of `shake128` at output length 288. -/
theorem shake288 (msg : List Nat) :
    shake128 msg (36 * 8) =
      (lanesToBytes (absorb (shakePad msg)) 168 ++
        (lanesToBytes (keccakP (absorb (shakePad msg))) 168 ++ [])).take (36 * 8) := by
  rfl

set_option maxRecDepth 8000 in
theorem habs00 : absorb (shakePad (c0gen.nonce ++ le32 0 ++ le32 0)) = ksA0j0 := by
  rfl

set_option maxRecDepth 8000 in
theorem hperm00 : keccakP ksA0j0 = ksB0j0 := by
  rfl

set_option maxRecDepth 4000 in
theorem hshake00 : shake128 (c0gen.nonce ++ le32 0 ++ le32 0) (36 * 8) = skb0j0 := by
  rw [shake288, habs00, hperm00]
  rfl

set_option maxRecDepth 4000 in
theorem hrc00 : generate_round_constant c0gen 0 0 65579 = rc0j0 := by
  unfold generate_round_constant
  rw [hshake00]
  rfl

set_option maxRecDepth 8000 in
theorem habs10 : absorb (shakePad (c0gen.nonce ++ le32 0 ++ le32 1)) = ksA1j0 := by
  rfl

set_option maxRecDepth 8000 in
theorem hperm10 : keccakP ksA1j0 = ksB1j0 := by
  rfl

set_option maxRecDepth 4000 in
theorem hshake10 : shake128 (c0gen.nonce ++ le32 0 ++ le32 1) (36 * 8) = skb1j0 := by
  rw [shake288, habs10, hperm10]
  rfl

set_option maxRecDepth 4000 in
theorem hrc10 : generate_round_constant c0gen 1 0 65579 = rc1j0 := by
  unfold generate_round_constant
  rw [hshake10]
  rfl

set_option maxRecDepth 8000 in
theorem habs20 : absorb (shakePad (c0gen.nonce ++ le32 0 ++ le32 2)) = ksA2j0 := by
  rfl

set_option maxRecDepth 8000 in
theorem hperm20 : keccakP ksA2j0 = ksB2j0 := by
  rfl

set_option maxRecDepth 4000 in
theorem hshake20 : shake128 (c0gen.nonce ++ le32 0 ++ le32 2) (36 * 8) = skb2j0 := by
  rw [shake288, habs20, hperm20]
  rfl

set_option maxRecDepth 4000 in
theorem hrc20 : generate_round_constant c0gen 2 0 65579 = rc2j0 := by
  unfold generate_round_constant
  rw [hshake20]
  rfl

set_option maxRecDepth 8000 in
theorem habs30 : absorb (shakePad (c0gen.nonce ++ le32 0 ++ le32 3)) = ksA3j0 := by
  rfl

set_option maxRecDepth 8000 in
theorem hperm30 : keccakP ksA3j0 = ksB3j0 := by
  rfl

set_option maxRecDepth 4000 in
theorem hshake30 : shake128 (c0gen.nonce ++ le32 0 ++ le32 3) (36 * 8) = skb3j0 := by
  rw [shake288, habs30, hperm30]
  rfl

set_option maxRecDepth 4000 in
theorem hrc30 : generate_round_constant c0gen 3 0 65579 = rc3j0 := by
  unfold generate_round_constant
  rw [hshake30]
  rfl

set_option maxRecDepth 8000 in
theorem habs40 : absorb (shakePad (c0gen.nonce ++ le32 0 ++ le32 4)) = ksA4j0 := by
  rfl

set_option maxRecDepth 8000 in
theorem hperm40 : keccakP ksA4j0 = ksB4j0 := by
  rfl

set_option maxRecDepth 4000 in
theorem hshake40 : shake128 (c0gen.nonce ++ le32 0 ++ le32 4) (36 * 8) = skb4j0 := by
  rw [shake288, habs40, hperm40]
  rfl

set_option maxRecDepth 4000 in
theorem hrc40 : generate_round_constant c0gen 4 0 65579 = rc4j0 := by
  unfold generate_round_constant
  rw [hshake40]
  rfl

set_option maxRecDepth 8000 in
theorem habs50 : absorb (shakePad (c0gen.nonce ++ le32 0 ++ le32 5)) = ksA5j0 := by
  rfl

set_option maxRecDepth 8000 in
theorem hperm50 : keccakP ksA5j0 = ksB5j0 := by
  rfl

set_option maxRecDepth 4000 in
theorem hshake50 : shake128 (c0gen.nonce ++ le32 0 ++ le32 5) (36 * 8) = skb5j0 := by
  rw [shake288, habs50, hperm50]
  rfl

set_option maxRecDepth 4000 in
theorem hrc50 : generate_round_constant c0gen 5 0 65579 = rc5j0 := by
  unfold generate_round_constant
  rw [hshake50]
  rfl

set_option maxRecDepth 8000 in
theorem habs01 : absorb (shakePad (c0gen.nonce ++ le32 1 ++ le32 0)) = ksA0j1 := by
  rfl

set_option maxRecDepth 8000 in
theorem hperm01 : keccakP ksA0j1 = ksB0j1 := by
  rfl

set_option maxRecDepth 4000 in
theorem hshake01 : shake128 (c0gen.nonce ++ le32 1 ++ le32 0) (36 * 8) = skb0j1 := by
  rw [shake288, habs01, hperm01]
  rfl

set_option maxRecDepth 4000 in
theorem hrc01 : generate_round_constant c0gen 0 1 65579 = rc0j1 := by
  unfold generate_round_constant
  rw [hshake01]
  rfl

set_option maxRecDepth 8000 in
theorem habs11 : absorb (shakePad (c0gen.nonce ++ le32 1 ++ le32 1)) = ksA1j1 := by
  rfl

set_option maxRecDepth 8000 in
theorem hperm11 : keccakP ksA1j1 = ksB1j1 := by
  rfl

set_option maxRecDepth 4000 in
theorem hshake11 : shake128 (c0gen.nonce ++ le32 1 ++ le32 1) (36 * 8) = skb1j1 := by
  rw [shake288, habs11, hperm11]
  rfl

set_option maxRecDepth 4000 in
theorem hrc11 : generate_round_constant c0gen 1 1 65579 = rc1j1 := by
  unfold generate_round_constant
  rw [hshake11]
  rfl

set_option maxRecDepth 8000 in
theorem habs21 : absorb (shakePad (c0gen.nonce ++ le32 1 ++ le32 2)) = ksA2j1 := by
  rfl

set_option maxRecDepth 8000 in
theorem hperm21 : keccakP ksA2j1 = ksB2j1 := by
  rfl

set_option maxRecDepth 4000 in
theorem hshake21 : shake128 (c0gen.nonce ++ le32 1 ++ le32 2) (36 * 8) = skb2j1 := by
  rw [shake288, habs21, hperm21]
  rfl

set_option maxRecDepth 4000 in
theorem hrc21 : generate_round_constant c0gen 2 1 65579 = rc2j1 := by
  unfold generate_round_constant
  rw [hshake21]
  rfl

set_option maxRecDepth 8000 in
theorem habs31 : absorb (shakePad (c0gen.nonce ++ le32 1 ++ le32 3)) = ksA3j1 := by
  rfl

set_option maxRecDepth 8000 in
theorem hperm31 : keccakP ksA3j1 = ksB3j1 := by
  rfl

set_option maxRecDepth 4000 in
theorem hshake31 : shake128 (c0gen.nonce ++ le32 1 ++ le32 3) (36 * 8) = skb3j1 := by
  rw [shake288, habs31, hperm31]
  rfl

set_option maxRecDepth 4000 in
theorem hrc31 : generate_round_constant c0gen 3 1 65579 = rc3j1 := by
  unfold generate_round_constant
  rw [hshake31]
  rfl

set_option maxRecDepth 8000 in
theorem habs41 : absorb (shakePad (c0gen.nonce ++ le32 1 ++ le32 4)) = ksA4j1 := by
  rfl

set_option maxRecDepth 8000 in
theorem hperm41 : keccakP ksA4j1 = ksB4j1 := by
  rfl

set_option maxRecDepth 4000 in
theorem hshake41 : shake128 (c0gen.nonce ++ le32 1 ++ le32 4) (36 * 8) = skb4j1 := by
  rw [shake288, habs41, hperm41]
  rfl

set_option maxRecDepth 4000 in
theorem hrc41 : generate_round_constant c0gen 4 1 65579 = rc4j1 := by
  unfold generate_round_constant
  rw [hshake41]
  rfl

set_option maxRecDepth 8000 in
theorem habs51 : absorb (shakePad (c0gen.nonce ++ le32 1 ++ le32 5)) = ksA5j1 := by
  rfl

set_option maxRecDepth 8000 in
theorem hperm51 : keccakP ksA5j1 = ksB5j1 := by
  rfl

set_option maxRecDepth 4000 in
theorem hshake51 : shake128 (c0gen.nonce ++ le32 1 ++ le32 5) (36 * 8) = skb5j1 := by
  rw [shake288, habs51, hperm51]
  rfl

set_option maxRecDepth 4000 in
theorem hrc51 : generate_round_constant c0gen 5 1 65579 = rc5j1 := by
  unfold generate_round_constant
  rw [hshake51]
  rfl

theorem hwhA : akPure (cvPure 65579 0) (rkPure c0key rc0j0 65579) 65579 = stA0 := by
  rfl

theorem hwhB : akPure (cvPure 65579 1) (rkPure c0key rc0j1 65579) 65579 = stB0 := by
  rfl

set_option maxRecDepth 4000 in
theorem hA1 : roundFastR 65579 65579 c0key rc1j0 stA0 = stA1 := by
  rfl

set_option maxRecDepth 4000 in
theorem hA2 : roundFastR 65579 65579 c0key rc2j0 stA1 = stA2 := by
  rfl

set_option maxRecDepth 4000 in
theorem hA3 : roundFastR 65579 65579 c0key rc3j0 stA2 = stA3 := by
  rfl

set_option maxRecDepth 4000 in
theorem hA4 : roundFastR 65579 65579 c0key rc4j0 stA3 = stA4 := by
  rfl

set_option maxRecDepth 4000 in
theorem hA5 : roundFastR 65579 65579 c0key rc5j0 stA4 = stA5 := by
  rfl

set_option maxRecDepth 4000 in
theorem hB1 : roundFastR 65579 65579 c0key rc1j1 stB0 = stB1 := by
  rfl

set_option maxRecDepth 4000 in
theorem hB2 : roundFastR 65579 65579 c0key rc2j1 stB1 = stB2 := by
  rfl

set_option maxRecDepth 4000 in
theorem hB3 : roundFastR 65579 65579 c0key rc3j1 stB2 = stB3 := by
  rfl

set_option maxRecDepth 4000 in
theorem hB4 : roundFastR 65579 65579 c0key rc4j1 stB3 = stB4 := by
  rfl

set_option maxRecDepth 4000 in
theorem hB5 : roundFastR 65579 65579 c0key rc5j1 stB4 = stB5 := by
  rfl

set_option maxRecDepth 4000 in
theorem hQ1 : roundFastR 65537 65579 c0key rc1j0 stA0 = stQ1 := by
  rfl

set_option maxRecDepth 4000 in
theorem hQ2 : roundFastR 65537 65579 c0key rc2j0 stQ1 = stQ2 := by
  rfl

set_option maxRecDepth 4000 in
theorem hQ3 : roundFastR 65537 65579 c0key rc3j0 stQ2 = stQ3 := by
  rfl

set_option maxRecDepth 4000 in
theorem hQ4 : roundFastR 65537 65579 c0key rc4j0 stQ3 = stQ4 := by
  rfl

set_option maxRecDepth 4000 in
theorem hQ5 : roundFastR 65537 65579 c0key rc5j0 stQ4 = stQ5 := by
  rfl

set_option maxRecDepth 4000 in
theorem hfinA : (linFast stA5 65579).drop 12 = b0 := by
  rfl

set_option maxRecDepth 4000 in
theorem hfinB : (linFast stB5 65579).drop 12 = b1 := by
  rfl

set_option maxRecDepth 4000 in
theorem hfinQ : (linFast stQ5 65579).drop 12 = b0q := by
  rfl

/-- Block 0 of the concrete instance, with S-box modulus 65579, equals `b0`. -/
theorem hbA : blockFast 65579 65579 c0key c0gen 5 12 0 = b0 := by
  unfold blockFast
  rw [show List.range 5 = [0, 1, 2, 3, 4] from rfl]
  simp only [List.foldl_cons, List.foldl_nil, roundFast, Nat.reduceAdd]
  rw [hrc00, hrc10, hrc20, hrc30, hrc40, hrc50, hwhA, hA1, hA2, hA3, hA4, hA5]
  exact hfinA

/-- Block 1 of the concrete instance, with S-box modulus 65579, equals `b1`. -/
theorem hbB : blockFast 65579 65579 c0key c0gen 5 12 1 = b1 := by
  unfold blockFast
  rw [show List.range 5 = [0, 1, 2, 3, 4] from rfl]
  simp only [List.foldl_cons, List.foldl_nil, roundFast, Nat.reduceAdd]
  rw [hrc01, hrc11, hrc21, hrc31, hrc41, hrc51, hwhB, hB1, hB2, hB3, hB4, hB5]
  exact hfinB

/-- Block 0 of the concrete instance, with S-box modulus 65537, equals `b0q`. -/
theorem hbQ : blockFast 65537 65579 c0key c0gen 5 12 0 = b0q := by
  unfold blockFast
  rw [show List.range 5 = [0, 1, 2, 3, 4] from rfl]
  simp only [List.foldl_cons, List.foldl_nil, roundFast, Nat.reduceAdd]
  rw [hrc00, hrc10, hrc20, hrc30, hrc40, hrc50, hwhA, hQ1, hQ2, hQ3, hQ4, hQ5]
  exact hfinQ

/-! ## Helper lemmas for the claims -/

theorem beBytes_foldl (bs : List Nat) : ∀ (a : Nat),
    bs.foldl (fun (acc : Int) (b : Nat) => acc * 256 + (b : Int)) (a : Int)
      = ((bs.foldl (fun acc b => acc * 256 + b) a : Nat) : Int) := by
  induction bs with
  | nil => intro a; rfl
  | cons x xs ih =>
    intro a
    rw [List.foldl_cons, List.foldl_cons]
    have h : ((a : Int) * 256 + (x : Int)) = ((a * 256 + x : Nat) : Int) := by
      push_cast
      ring
    rw [h, ih]

theorem bytes_to_mpz_beBytes (bs : List Nat) :
    bytes_to_mpz bs = ((beBytes bs : Nat) : Int) := by
  unfold bytes_to_mpz beBytes
  have h := beBytes_foldl bs 0
  simpa using h

theorem length_lpRows (s : List Int) (p : Int) : (lpRows s p).length = 36 := rfl

theorem blockSpec_fast (c : YuSCipher) (hp : 0 < c.p) (j : Nat) :
    blockSpec c j
      = blockFast c.p c.p c.master_key c.rk_gen c.level.toRounds c.trunc_m j := by
  unfold blockSpec blockFast roundSpec roundFast roundFastR rkSpec akSpec cvSpec
    rkPure akPure cvPure
  simp only [lpRows_fast _ _ hp, cppMod_eq_emod _ _ hp]

theorem length_blockSpec (c : YuSCipher) (j : Nat) :
    (blockSpec c j).length = 36 - c.trunc_m := by
  unfold blockSpec
  rw [List.length_drop, length_lpRows]

theorem length_flatten_blockSpec (c : YuSCipher) : ∀ (jl : List Nat),
    ((jl.map (blockSpec c)).flatten).length = jl.length * (36 - c.trunc_m) := by
  intro jl
  induction jl with
  | nil => simp
  | cons x xs ih =>
    simp only [List.map_cons, List.flatten_cons, List.length_append,
      List.length_cons, length_blockSpec, ih]
    ring

theorem tmod_three_eq (p : Int) (hp : 0 ≤ p) : Int.tmod p 3 = p % 3 := by
  have h1 : 0 ≤ Int.tmod p 3 := Int.tmod_nonneg 3 hp
  have h2 : Int.tmod p 3 < 3 := Int.tmod_lt_of_pos p (by norm_num)
  have h3 := tmod_emod p 3
  rw [Int.emod_eq_of_lt h1 h2] at h3
  exact h3

/-! ## The claims -/

set_option maxRecDepth 4000 in
/-- C1: the claim that `LinearLayer::apply` equals the plain matrix-vector
product mod p of §6.1 is FALSE: on the unit vector e₀ (36 field elements of
F_65579) the Four-Russians path returns 6 in row 0 while the plain product
gives 1.  The inner loop adds `state[col_start + i % 4]` for every set bit
`i` of the whole 36-bit table entry instead of only the bits of the current
group, so rows pick up spurious summands. -/
theorem C1_four_russians_deviates :
    e0.length = 36 ∧ (∀ x ∈ e0, 0 ≤ x ∧ x < 65579)
      ∧ LinearLayer.apply e0 65579 = .ok (linFast e0 65579)
      ∧ (linFast e0 65579).getD 0 0 = 6
      ∧ (matVecSpec e0 65579).getD 0 0 = 1
      ∧ LinearLayer.apply e0 65579 ≠ .ok (matVecSpec e0 65579) := by
  refine ⟨rfl, by decide, linearApply_fast e0 65579 (by norm_num) rfl,
    by decide, by decide, ?_⟩
  intro h
  unfold LinearLayer.apply at h
  rw [linearApply_fast e0 65579 (by norm_num) rfl] at h
  have h2 : linFast e0 65579 = matVecSpec e0 65579 := by
    injection h
  exact absurd h2 (by decide)

/-- C2 (counterexample): there is no internal block counter.  On the concrete
instance `c0`, the keystream for two blocks is `b0 ++ b1`, yet a second
successive one-block call (fed the post-call static S-box state of the first)
returns `b0` again instead of the continuation block `b1`. -/
theorem C2_counterexample :
    c0.generate_keystream none 2 = (some 65579, .ok (b0 ++ b1))
      ∧ (c0.generate_keystream none 1).2 = .ok b0
      ∧ (c0.generate_keystream ((c0.generate_keystream none 1).1) 1).2 = .ok b0
      ∧ b0 ≠ b1 := by
  have hp2 : is_p_2mod3 c0.p = true := by decide
  have hkey : c0.master_key.length = 36 := rfl
  have h1 : c0.generate_keystream none 1 = (some 65579, .ok b0) := by
    rw [gs_fast c0 none 1 hp2 hkey]
    show (some (65579 : Int),
        Except.ok (blockFast 65579 65579 c0key c0gen 5 12 0 ++ ([] : List Int)))
      = (some (65579 : Int), Except.ok b0)
    rw [hbA, List.append_nil]
  have h2 : c0.generate_keystream (some 65579) 1 = (some 65579, .ok b0) := by
    rw [gs_fast c0 (some 65579) 1 hp2 hkey]
    show (some (65579 : Int),
        Except.ok (blockFast 65579 65579 c0key c0gen 5 12 0 ++ ([] : List Int)))
      = (some (65579 : Int), Except.ok b0)
    rw [hbA, List.append_nil]
  have h3 : c0.generate_keystream none 2 = (some 65579, .ok (b0 ++ b1)) := by
    rw [gs_fast c0 none 2 hp2 hkey]
    show (some (65579 : Int),
        Except.ok (blockFast 65579 65579 c0key c0gen 5 12 0
          ++ (blockFast 65579 65579 c0key c0gen 5 12 1 ++ ([] : List Int))))
      = (some (65579 : Int), Except.ok (b0 ++ b1))
    rw [hbA, hbB, List.append_nil]
  refine ⟨h3, by rw [h1], ?_, by decide⟩
  rw [h1]
  exact congrArg Prod.snd h2

/-- C2 (amended): `generate_keystream` keeps no counter between calls: every
call, whatever the prior static S-box state `g`, enumerates the block indices
0..n−1 afresh, so a repeated call re-emits the same block positions. -/
theorem C2_restarts_at_block_zero (c : YuSCipher) (g : Option Int) (n : Nat)
    (hp2 : is_p_2mod3 c.p = true) (hkey : c.master_key.length = 36) :
    (c.generate_keystream g n).2
      = .ok (((List.range n).map (blockFast (g.getD c.p) c.p c.master_key c.rk_gen
          c.level.toRounds c.trunc_m)).flatten) :=
  congrArg Prod.snd (gs_fast c g n hp2 hkey)

/-- Witness for C2 at the concrete instance `c0`, one block, fresh process. -/
theorem C2_restarts_at_block_zero_witness :
    is_p_2mod3 c0.p = true ∧ c0.master_key.length = 36 ∧
    (c0.generate_keystream none 1).2
      = .ok (((List.range 1).map (blockFast (Option.getD none c0.p) c0.p c0.master_key
          c0.rk_gen c0.level.toRounds c0.trunc_m)).flatten) :=
  ⟨by decide, rfl, C2_restarts_at_block_zero c0 none 1 (by decide) rfl⟩

/-- C3 (counterexample): determinism across process histories FAILS.  The same
instance `c0` with the same arguments returns `b0` in a fresh process (static
S-box unset) but `b0q` when an earlier instance with the equally valid modulus
65537 already constructed the process-global static S-box. -/
theorem C3_counterexample :
    (c0.generate_keystream none 1).2 = .ok b0
      ∧ (c0.generate_keystream (some qAlt) 1).2 = .ok b0q
      ∧ b0 ≠ b0q
      ∧ is_p_2mod3 qAlt = true ∧ (65536 : Int) ≤ qAlt := by
  have hp2 : is_p_2mod3 c0.p = true := by decide
  have hkey : c0.master_key.length = 36 := rfl
  have h1 : c0.generate_keystream none 1 = (some 65579, .ok b0) := by
    rw [gs_fast c0 none 1 hp2 hkey]
    show (some (65579 : Int),
        Except.ok (blockFast 65579 65579 c0key c0gen 5 12 0 ++ ([] : List Int)))
      = (some (65579 : Int), Except.ok b0)
    rw [hbA, List.append_nil]
  have h2 : c0.generate_keystream (some qAlt) 1 = (some qAlt, .ok b0q) := by
    rw [gs_fast c0 (some qAlt) 1 hp2 hkey]
    show (some qAlt,
        Except.ok (blockFast 65537 65579 c0key c0gen 5 12 0 ++ ([] : List Int)))
      = (some qAlt, Except.ok b0q)
    rw [hbQ, List.append_nil]
  exact ⟨by rw [h1], by rw [h2], by decide, by decide, by decide⟩

/-- C3 (amended): `generate_keystream` is deterministic in (p, L, m, K, N, n)
AND the process-global static S-box state: two instances that agree on every
field return identical results for the same global state `g` and `n`. -/
theorem C3_deterministic (c1 c2 : YuSCipher) (g : Option Int) (n : Nat)
    (hp : c1.p = c2.p) (hl : c1.level = c2.level) (hm : c1.trunc_m = c2.trunc_m)
    (hk : c1.master_key = c2.master_key) (hg : c1.rk_gen = c2.rk_gen) :
    c1.generate_keystream g n = c2.generate_keystream g n := by
  have h : c1 = c2 := by
    cases c1
    cases c2
    simp_all
  rw [h]

/-- Witness for C3 at the fieldwise-equal instances `c0` and `c0b`. -/
theorem C3_deterministic_witness :
    c0.p = c0b.p ∧ c0.level = c0b.level ∧ c0.trunc_m = c0b.trunc_m
      ∧ c0.master_key = c0b.master_key ∧ c0.rk_gen = c0b.rk_gen
      ∧ c0.generate_keystream none 1 = c0b.generate_keystream none 1 :=
  ⟨rfl, rfl, rfl, rfl, rfl, C3_deterministic c0 c0b none 1 rfl rfl rfl rfl rfl⟩

/-- C4: on a fresh process, `generate_keystream n` of an initialized cipher
with valid modulus emits, for each j = 0..n−1, the block obtained from the
counter vector CV_j[i] = ((i+1)+j) mod p by whitening with rk^(0,j), then R
rounds of AK(LP(SL(state)), rk^(r,j)) (R = 5 for SEC80, 6 for SEC128), a
final LP and truncation to state[m..36]; the whole keystream has length
n·(36−m).  `blockSpec` is that per-block pipeline written with mathematical
mod; LP denotes the implemented linear layer (its own contract is C1). -/
theorem C4_block_structure (c : YuSCipher) (n : Nat)
    (hp2 : is_p_2mod3 c.p = true) (hkey : c.master_key.length = 36) :
    (c.generate_keystream none n).2 = .ok (((List.range n).map (blockSpec c)).flatten)
      ∧ (((List.range n).map (blockSpec c)).flatten).length = n * (36 - c.trunc_m)
      ∧ SecurityLevel.SEC80.toRounds = 5 ∧ SecurityLevel.SEC128.toRounds = 6 := by
  have hp : 0 < c.p := is_p_2mod3_pos _ hp2
  refine ⟨?_, ?_, rfl, rfl⟩
  · have hb : blockSpec c
        = blockFast (Option.getD none c.p) c.p c.master_key c.rk_gen
            c.level.toRounds c.trunc_m :=
      funext fun j => blockSpec_fast c hp j
    rw [congrArg Prod.snd (gs_fast c none n hp2 hkey), hb]
  · rw [length_flatten_blockSpec c (List.range n), List.length_range]

/-- Witness for C4 at the concrete instance `c0` with one block. -/
theorem C4_block_structure_witness :
    is_p_2mod3 c0.p = true ∧ c0.master_key.length = 36 ∧
    ((c0.generate_keystream none 1).2 = .ok (((List.range 1).map (blockSpec c0)).flatten)
      ∧ (((List.range 1).map (blockSpec c0)).flatten).length = 1 * (36 - c0.trunc_m)
      ∧ SecurityLevel.SEC80.toRounds = 5 ∧ SecurityLevel.SEC128.toRounds = 6) :=
  ⟨by decide, rfl, C4_block_structure c0 1 (by decide) rfl⟩

/-- C5: the round constant rc(r, j, p) is SHAKE128(N ∥ j_LE32 ∥ r_LE32) read
as 36 big-endian 8-byte words reduced mod p with zeros replaced by 1
(`rcSpec` transcribes the spec's wording), and all 36 components are non-zero
and < p. -/
theorem C5_round_constant_spec (gen : RoundKeyGenerator) (i j : Nat) (p : Int)
    (hp : 1 < p) :
    generate_round_constant gen i j p = rcSpec gen.nonce i j p
      ∧ (generate_round_constant gen i j p).length = 36
      ∧ (∀ x ∈ generate_round_constant gen i j p, 0 < x ∧ x < p) := by
  have hp0 : 0 < p := by omega
  refine ⟨?_, length_rc gen i j p, ?_⟩
  · unfold generate_round_constant rcSpec
    apply List.map_congr_left
    intro k _
    dsimp only
    rw [bytes_to_mpz_beBytes, cppMod_eq_emod _ _ hp0,
      show (36 * 8 : Nat) = 288 from rfl]
    simp [beq_iff_eq]
  · intro x hx
    unfold generate_round_constant at hx
    rw [List.mem_map] at hx
    obtain ⟨k, _, hxe⟩ := hx
    dsimp only at hxe
    rw [← hxe]
    by_cases h : cppMod (bytes_to_mpz
        (((shake128 (gen.nonce ++ le32 j ++ le32 i) (36 * 8)).drop (k * 8)).take 8)) p = 0
    · simp only [h, beq_self_eq_true, if_true]
      omega
    · have hb : ((cppMod (bytes_to_mpz
          (((shake128 (gen.nonce ++ le32 j ++ le32 i) (36 * 8)).drop (k * 8)).take 8)) p
            == 0) : Bool) = false := by
        rw [beq_eq_false_iff_ne]
        exact h
      rw [hb]
      simp only [Bool.false_eq_true, if_false]
      have h1 := cppMod_nonneg (bytes_to_mpz
        (((shake128 (gen.nonce ++ le32 j ++ le32 i) (36 * 8)).drop (k * 8)).take 8)) p hp0
      have h2 := cppMod_lt (bytes_to_mpz
        (((shake128 (gen.nonce ++ le32 j ++ le32 i) (36 * 8)).drop (k * 8)).take 8)) p hp0
      exact ⟨by omega, h2⟩

/-- Witness for C5 at the concrete generator of `c0`, r = j = 0, p = 65579. -/
theorem C5_round_constant_spec_witness :
    (1 : Int) < 65579 ∧
    (generate_round_constant c0gen 0 0 65579 = rcSpec c0gen.nonce 0 0 65579
      ∧ (generate_round_constant c0gen 0 0 65579).length = 36
      ∧ (∀ x ∈ generate_round_constant c0gen 0 0 65579, 0 < x ∧ x < 65579)) :=
  ⟨by norm_num, C5_round_constant_spec c0gen 0 0 65579 (by norm_num)⟩

/-- C6: `SBox::apply` realizes S(x0,x1,x2) = (x0, x0·x2+x1 mod p,
−x0·x1+x0·x2+x2 mod p) on field elements, and maps (1,2,3) to
(1, 5 mod p, 4 mod p). -/
theorem C6_sbox_formula (p x0 x1 x2 : Int) (hp2 : is_p_2mod3 p = true)
    (hp16 : (65536 : Int) < p) (h0 : 0 ≤ x0 ∧ x0 < p) (h1 : 0 ≤ x1 ∧ x1 < p)
    (h2 : 0 ≤ x2 ∧ x2 < p) :
    SBox.make p = .ok ⟨p⟩
      ∧ SBox.apply ⟨p⟩ [x0, x1, x2]
          = .ok [x0, (x0 * x2 + x1) % p, (-x0 * x1 + x0 * x2 + x2) % p]
      ∧ SBox.apply ⟨p⟩ [1, 2, 3] = .ok [1, 5 % p, 4 % p] := by
  have hp : 0 < p := by omega
  refine ⟨by unfold SBox.make; rw [if_pos hp2], ?_, ?_⟩
  · unfold SBox.apply
    rw [if_neg (by simp)]
    show Except.ok (sboxTriple p x0 x1 x2) = _
    unfold sboxTriple
    simp only [cppMod_eq_emod _ _ hp]
    rw [Int.emod_eq_of_lt h0.1 h0.2]
  · unfold SBox.apply
    rw [if_neg (by simp)]
    show Except.ok [cppMod 1 p, cppMod 5 p, cppMod 4 p]
      = Except.ok [1, 5 % p, 4 % p]
    simp only [cppMod_eq_emod _ _ hp]
    rw [Int.emod_eq_of_lt (by norm_num) (by omega : (1 : Int) < p)]

/-- Witness for C6 at p = 65579 and input (1, 2, 3). -/
theorem C6_sbox_formula_witness :
    is_p_2mod3 (65579 : Int) = true ∧ (65536 : Int) < 65579
      ∧ (SBox.make 65579 = .ok ⟨65579⟩
        ∧ SBox.apply ⟨65579⟩ [1, 2, 3] = .ok [1, 5 % (65579 : Int), 4 % (65579 : Int)]
        ∧ SBox.apply ⟨65579⟩ [1, 2, 3] = .ok [1, 5 % (65579 : Int), 4 % (65579 : Int)]) :=
  ⟨by decide, by decide,
    C6_sbox_formula 65579 1 2 3 (by decide) (by decide) (by decide) (by decide) (by decide)⟩

/-- C7: `SBox::is_permutation` returns true for every p > 2^16: it takes the
determinant branch (p > 1000) and its quantity (1 + p + p²) mod p equals 1,
which is non-zero. -/
theorem C7_is_permutation (p : Int) (hp2 : is_p_2mod3 p = true)
    (hp16 : (65536 : Int) < p) :
    SBox.is_permutation ⟨p⟩ = true ∧ cppMod (1 + p + p * p) p = 1 := by
  have hp : 0 < p := by omega
  have hm : cppMod (1 + p + p * p) p = 1 := by
    rw [cppMod_eq_emod _ _ hp, show (1 + p + p * p : Int) = 1 + p * (1 + p) by ring,
      Int.add_mul_emod_self_left]
    exact Int.emod_eq_of_lt (by norm_num) (by omega)
  refine ⟨?_, hm⟩
  simp only [SBox.is_permutation]
  rw [if_pos (show p > 1000 by omega), hm]
  decide

/-- Witness for C7 at p = 65579. -/
theorem C7_is_permutation_witness :
    is_p_2mod3 (65579 : Int) = true ∧ (65536 : Int) < 65579
      ∧ (SBox.is_permutation ⟨65579⟩ = true
        ∧ cppMod (1 + 65579 + 65579 * 65579) 65579 = 1) :=
  ⟨by decide, by decide, C7_is_permutation 65579 (by decide) (by decide)⟩

/-- C8: the constructor succeeds exactly when p ≡ 2 mod 3, p ≥ 2^16 and
m ≤ 36, and fails with invalid-argument otherwise; `init` succeeds exactly
when the key has 36 elements; `generate_keystream` before a successful
`init` (empty key) fails with not-initialized and emits nothing. -/
theorem C8_error_conditions (p : Int) (level : SecurityLevel) (m : Nat)
    (key : List Int) (nonce : List Nat) (c : YuSCipher) (g : Option Int) (n : Nat) :
    ((∃ c', YuSCipher.make p level m = .ok c') ↔ (p % 3 = 2 ∧ 65536 ≤ p ∧ m ≤ 36))
      ∧ (¬ (p % 3 = 2 ∧ 65536 ≤ p ∧ m ≤ 36) →
          YuSCipher.make p level m = .error .invalidArgument)
      ∧ ((∃ c', c.init key nonce = .ok c') ↔ key.length = 36)
      ∧ (key.length ≠ 36 → c.init key nonce = .error .invalidArgument)
      ∧ (c.master_key = [] → c.generate_keystream g n = (g, .error .notInitialized)) := by
  have hiff : ∀ q : Int, 0 ≤ q → (is_p_2mod3 q = true ↔ q % 3 = 2) := by
    intro q hq
    unfold is_p_2mod3
    rw [beq_iff_eq, tmod_three_eq q hq]
  constructor
  · constructor
    · rintro ⟨c', hc⟩
      unfold YuSCipher.make at hc
      split_ifs at hc with ha hb hcc
      push_neg at hb hcc
      exact ⟨(hiff p (by omega)).mp ha, by omega, by omega⟩
    · rintro ⟨h3, h16, h36⟩
      refine ⟨⟨p, level, m, [], ⟨[], level.toRounds⟩⟩, ?_⟩
      unfold YuSCipher.make
      rw [if_neg (by rw [not_not]; exact (hiff p (by omega)).mpr h3),
        if_neg (by omega), if_neg (by omega)]
  refine ⟨?_, ?_, ?_, ?_⟩
  · intro h
    unfold YuSCipher.make
    split_ifs with ha hb hcc
    all_goals try rfl
    push_neg at hb hcc
    exact absurd ⟨(hiff p (by omega)).mp ha, by omega, by omega⟩ h
  · constructor
    · rintro ⟨c', hc⟩
      unfold YuSCipher.init at hc
      split_ifs at hc with h
      omega
    · intro h
      refine ⟨{ c with master_key := key, rk_gen := ⟨nonce, c.level.toRounds⟩ }, ?_⟩
      unfold YuSCipher.init
      rw [if_neg (by omega)]
  · intro h
    unfold YuSCipher.init
    rw [if_pos h]
  · intro h
    unfold YuSCipher.generate_keystream YuSCipher.generate_keystreamW
    rw [if_pos h]

/-- Witness for C8 at concrete arguments (valid parameters, the
uninitialized instance `u0`). -/
theorem C8_error_conditions_witness :
    ((∃ c', YuSCipher.make 65579 .SEC80 12 = .ok c')
        ↔ ((65579 : Int) % 3 = 2 ∧ (65536 : Int) ≤ 65579 ∧ 12 ≤ 36))
      ∧ (¬ ((65579 : Int) % 3 = 2 ∧ (65536 : Int) ≤ 65579 ∧ 12 ≤ 36) →
          YuSCipher.make 65579 .SEC80 12 = .error .invalidArgument)
      ∧ ((∃ c', u0.init c0key c0nonce = .ok c') ↔ c0key.length = 36)
      ∧ (c0key.length ≠ 36 → u0.init c0key c0nonce = .error .invalidArgument)
      ∧ (u0.master_key = [] →
          u0.generate_keystream none 1 = (none, .error .notInitialized)) :=
  C8_error_conditions 65579 .SEC80 12 c0key c0nonce u0 none 1

/-- C9: range preservation.  Every component of the S-box image lies in
[0, p), and the linear layer on a 36-vector succeeds with a 36-vector whose
entries all lie in [0, p). -/
theorem C9_range_preservation (p : Int) (hp : 0 < p) (x0 x1 x2 : Int)
    (v : List Int) (hv : v.length = 36) :
    SBox.apply ⟨p⟩ [x0, x1, x2] = .ok (sboxTriple p x0 x1 x2)
      ∧ (∀ y ∈ sboxTriple p x0 x1 x2, 0 ≤ y ∧ y < p)
      ∧ LinearLayer.apply v p = .ok (linFast v p)
      ∧ (linFast v p).length = 36
      ∧ (∀ y ∈ linFast v p, 0 ≤ y ∧ y < p) := by
  refine ⟨?_, ?_, linearApply_fast v p hp hv, length_linFast v p, ?_⟩
  · unfold SBox.apply
    rw [if_neg (by simp)]
    rfl
  · unfold sboxTriple
    intro y hy
    simp only [List.mem_cons, List.not_mem_nil, or_false] at hy
    rcases hy with rfl | rfl | rfl
    · exact ⟨cppMod_nonneg _ _ hp, cppMod_lt _ _ hp⟩
    · exact ⟨cppMod_nonneg _ _ hp, cppMod_lt _ _ hp⟩
    · exact ⟨cppMod_nonneg _ _ hp, cppMod_lt _ _ hp⟩
  · intro y hy
    unfold linFast at hy
    rw [List.mem_map] at hy
    obtain ⟨r, _, rfl⟩ := hy
    unfold rowFast
    exact ⟨Int.emod_nonneg _ (by omega), Int.emod_lt_of_pos _ hp⟩

/-- Witness for C9 at p = 65579, S-box input (1, 2, 3), vector e₀. -/
theorem C9_range_preservation_witness :
    (0 : Int) < 65579 ∧ e0.length = 36 ∧
    (SBox.apply ⟨65579⟩ [1, 2, 3] = .ok (sboxTriple 65579 1 2 3)
      ∧ (∀ y ∈ sboxTriple 65579 1 2 3, 0 ≤ y ∧ y < 65579)
      ∧ LinearLayer.apply e0 65579 = .ok (linFast e0 65579)
      ∧ (linFast e0 65579).length = 36
      ∧ (∀ y ∈ linFast e0 65579, 0 ≤ y ∧ y < 65579)) :=
  ⟨by decide, rfl, C9_range_preservation 65579 (by decide) 1 2 3 e0 rfl⟩

/-- C10: frame property.  `generate_keystream` reads but never writes the
instance fields, so the post-call instance equals the pre-call one, and two
consecutive calls with the same n (the second seeing the static S-box state
left by the first) return equal results. -/
theorem C10_frame (c : YuSCipher) (g : Option Int) (n : Nat)
    (hp2 : is_p_2mod3 c.p = true) (hkey : c.master_key.length = 36) :
    (c.generate_keystream_full g n).1.1 = c
      ∧ (c.generate_keystream_full ((c.generate_keystream_full g n).1.2) n).2
          = (c.generate_keystream_full g n).2 := by
  refine ⟨rfl, ?_⟩
  show (c.generate_keystream ((c.generate_keystream g n).1) n).2
    = (c.generate_keystream g n).2
  rw [gs_fast c g n hp2 hkey, gs_fast c _ n hp2 hkey]
  rcases n with _ | k
  · rfl
  · rfl

/-- Witness for C10 at the concrete instance `c0`, one block. -/
theorem C10_frame_witness :
    is_p_2mod3 c0.p = true ∧ c0.master_key.length = 36 ∧
    ((c0.generate_keystream_full none 1).1.1 = c0
      ∧ (c0.generate_keystream_full ((c0.generate_keystream_full none 1).1.2) 1).2
          = (c0.generate_keystream_full none 1).2) :=
  ⟨by decide, rfl, C10_frame c0 none 1 (by decide) rfl⟩

end Yus
